import Mathlib

/-!
# BME280 driver for PIC18F (SPI): shallow embedding

The embedded program is `BME280.c` / `BME280.h`, a driver written for the
Microchip XC8 compiler on a PIC18F.  On that target `char` is 8 bits, `int`
is 16 bits and `long` is 32 bits; signed values are two's complement, `>>` on a
signed value is an arithmetic shift and `>>` on an unsigned value is a logical
shift.  Signed overflow is rendered as wrap-around modulo 2^32.

Machine integers are mathematical integers; every C operation is followed by
the reduction of its C result type (`u32` for `unsigned long`, `s32` for
`signed long`, `% 65536` for `unsigned int`, `% 256` for `unsigned char`).
The final conversions to `float` are not embedded: every reading is given as
the integer the C code converts to `float` together with the constant that
the float is then divided by.
-/

namespace BME280

/-! ## C integer types -/

/-- Conversion to `unsigned long` (32 bits): reduction modulo 2^32. -/
def u32 (x : Int) : Int := x % 4294967296

/-- Conversion to `signed long` (32 bits, two's complement). -/
def s32 (x : Int) : Int := (x + 2147483648) % 4294967296 - 2147483648

/-- Right shift `x >> k`: logical on a non-negative (unsigned) operand,
arithmetic (rounding towards minus infinity) on a negative one. -/
def shr (x : Int) (k : Nat) : Int := x / 2 ^ k

/-- Left shift `x << k` before the reduction of the result type. -/
def shl (x : Int) (k : Nat) : Int := x * 2 ^ k

/-- Cast `(signed int)` of an `unsigned int`: the 16-bit pattern read as two's
complement. -/
def toS16 (x : Nat) : Int :=
  if x % 65536 < 32768 then ((x % 65536 : Nat) : Int) else ((x % 65536 : Nat) : Int) - 65536

/-! ## Temperature compensation (`readTemp`, lines 115-126) -/

/-- Line 116: `var1 = ((((adc_T>>3) - (dig_T1 <<1))) * (dig_T2)) >> 11`, where
`adc_T` and `dig_T1` are `unsigned long` and `dig_T2` is `signed long`: the
whole expression is evaluated in `unsigned long` and then stored in a
`signed long`. -/
def readTemp_var1 (dig_T1 dig_T2 adc_T : Int) : Int :=
  s32 (shr (u32 (u32 (shr adc_T 3 - u32 (shl dig_T1 1)) * u32 dig_T2)) 11)

/-- Line 119: `var2 = (((((adc_T>>4) - (dig_T1)) * ((adc_T>>4) - (dig_T1))) >> 12)
* (dig_T3)) >> 14`, evaluated in `unsigned long`, stored in a `signed long`. -/
def readTemp_var2 (dig_T1 dig_T3 adc_T : Int) : Int :=
  s32 (shr (u32 (shr (u32 (u32 (shr adc_T 4 - dig_T1) * u32 (shr adc_T 4 - dig_T1))) 12
    * u32 dig_T3)) 14)

/-- Line 123: `t_fine = var1 + var2` (`signed long`). -/
def readTemp_t_fine (dig_T1 dig_T2 dig_T3 adc_T : Int) : Int :=
  s32 (readTemp_var1 dig_T1 dig_T2 adc_T + readTemp_var2 dig_T1 dig_T3 adc_T)

/-- Line 125: the integer `(t_fine * 5 + 128) >> 8` (`signed long`, arithmetic
shift) that is converted to `float` and divided by 100. -/
def readTemp_T (t_fine : Int) : Int :=
  shr (s32 (s32 (t_fine * 5) + 128)) 8

/-! ## Humidity compensation (`readHumidity`, lines 141-157)

`v_x1_u32r` is declared `unsigned long`, so every operation of lines 144-155
that has it as an operand is carried out in `unsigned long`. -/

/-- Line 144: `v_x1_u32r = t_fine - 76800` (`signed long` difference stored in
the `unsigned long`). -/
def readHumidity_v0 (t_fine : Int) : Int :=
  u32 (s32 (t_fine - 76800))

/-- Lines 146-149, with `v` the value of line 144.  `dig_H2`, `dig_H4`,
`dig_H5` are `signed long`, `dig_H6` is `signed int`, `dig_H3` is
`unsigned int`, `adc_H` is `unsigned long`. -/
def readHumidity_v1 (dig_H2 dig_H3 dig_H4 dig_H5 dig_H6 adc_H v : Int) : Int :=
  u32 (
    shr (u32 (u32 (u32 (u32 (shl adc_H 14) - u32 (s32 (shl dig_H4 20))) - u32 (u32 dig_H5 * v))
      + 16384)) 15
    *
    shr (u32 (u32 (u32 (shr (u32 (shr (u32 (v * u32 dig_H6)) 10
        * u32 (shr (u32 (v * u32 dig_H3)) 11 + 32768))) 10 + 2097152) * u32 dig_H2) + 8192)) 14)

/-- Lines 151-152: the `dig_H1` correction (`dig_H1` is `unsigned int`). -/
def readHumidity_v2 (dig_H1 v : Int) : Int :=
  u32 (v - shr (u32 (shr (u32 (shr v 15 * shr v 15)) 7 * u32 dig_H1)) 4)

/-- The value of `v_x1_u32r` after line 152, before the two clamping lines. -/
def readHumidity_preclamp (dig_H1 dig_H2 dig_H3 dig_H4 dig_H5 dig_H6 adc_H t_fine : Int) : Int :=
  readHumidity_v2 dig_H1
    (readHumidity_v1 dig_H2 dig_H3 dig_H4 dig_H5 dig_H6 adc_H (readHumidity_v0 t_fine))

/-- Lines 154-155: the two conditional assignments, comparing `v_x1_u32r` as
the `unsigned long` it is. -/
def readHumidity_clamp (v : Int) : Int :=
  let v := if v < 0 then 0 else v
  if v > 419430400 then 419430400 else v

/-- Line 156: the integer `v_x1_u32r >> 12` that is converted to `float` and
divided by 1024. -/
def readHumidity_n (dig_H1 dig_H2 dig_H3 dig_H4 dig_H5 dig_H6 adc_H t_fine : Int) : Int :=
  shr (readHumidity_clamp
    (readHumidity_preclamp dig_H1 dig_H2 dig_H3 dig_H4 dig_H5 dig_H6 adc_H t_fine)) 12

/-! ## Pressure compensation (`readPressure`, lines 178-201) -/

/-- Unsigned division `a / b`; `none` is the division by zero. -/
def udiv (a b : Int) : Option Int :=
  if b = 0 then none else some (a / b)

/-- Lines 179-180: `var1 = (t_fine >> 1) - 64000`. -/
def readPressure_var1a (t_fine : Int) : Int :=
  s32 (shr (s32 t_fine) 1 - 64000)

/-- Lines 181-183: `var2`, from `var1` of line 180. -/
def readPressure_var2 (dig_P4 dig_P5 dig_P6 var1 : Int) : Int :=
  let var2 := s32 (shr (s32 (shr var1 2 * shr var1 2)) 11 * s32 dig_P6)
  let var2 := s32 (var2 + s32 (shl (s32 (var1 * s32 dig_P5)) 1))
  s32 (shr var2 2 + s32 (shl (s32 dig_P4) 16))

/-- Lines 184-185: the factor `var1` that is tested against 0 and used as the
divisor; the argument `var1` is the value of line 180. -/
def readPressure_var1 (dig_P1 dig_P2 dig_P3 var1 : Int) : Int :=
  let var1 := shr (s32 (shr (s32 (dig_P3 * shr (s32 (shr var1 2 * shr var1 2)) 13)) 3
    + shr (s32 (s32 dig_P2 * var1)) 1)) 18
  shr (s32 (s32 (32768 + var1) * s32 dig_P1)) 15

/-- Lines 189-196: `p` after the division, in `unsigned long`; `adc_P` is
`unsigned long`. -/
def readPressure_div (adc_P var1 var2 : Int) : Option Int := do
  let p := u32 (u32 (u32 (u32 1048576 - adc_P) - u32 (shr var2 12)) * 3125)
  if p < 0x80000000 then
    let q ← udiv (u32 (shl p 1)) (u32 var1)
    pure q
  else
    let q ← udiv p (u32 var1)
    pure (u32 (q * 2))

/-- Lines 197-199: the final value of `p`. -/
def readPressure_fin (dig_P7 dig_P8 dig_P9 p : Int) : Int :=
  let var1 := shr (s32 (s32 dig_P9 * s32 (shr (u32 (shr p 3 * shr p 3)) 13))) 12
  let var2 := shr (s32 (s32 (shr p 2) * s32 dig_P8)) 13
  u32 (s32 (s32 p + shr (s32 (s32 (var1 + var2) + dig_P7)) 4))

/-- Lines 179-199: `none` when the guard of line 186 returns early, otherwise
the value of `p` of line 199; the outer `none` is a division by zero. -/
def readPressure_p (dig_P1 dig_P2 dig_P3 dig_P4 dig_P5 dig_P6 dig_P7 dig_P8 dig_P9
    adc_P t_fine : Int) : Option (Option Int) := do
  let var1 := readPressure_var1a t_fine
  let var2 := readPressure_var2 dig_P4 dig_P5 dig_P6 var1
  let var1 := readPressure_var1 dig_P1 dig_P2 dig_P3 var1
  if var1 = 0 then
    pure none
  else
    let p ← readPressure_div adc_P var1 var2
    pure (some (readPressure_fin dig_P7 dig_P8 dig_P9 p))

/-- Lines 186-201: the integer converted to `float` and returned: 0 from the
guard, `p / 1000` (unsigned division) otherwise. -/
def readPressure_value (dig_P1 dig_P2 dig_P3 dig_P4 dig_P5 dig_P6 dig_P7 dig_P8 dig_P9
    adc_P t_fine : Int) : Option Int := do
  match ← readPressure_p dig_P1 dig_P2 dig_P3 dig_P4 dig_P5 dig_P6 dig_P7 dig_P8 dig_P9
      adc_P t_fine with
  | none => pure 0
  | some p => pure (p / 1000)

/-! ## The SPI peripheral and the sensor on the bus -/

/-- What is seen on the bus: a level written to the chip-select pin `CSB`, or
one byte exchange (the byte clocked out and the byte clocked in). -/
inductive BusEvent where
  | cs (level : Nat)
  | xfer (out inp : Nat)
  deriving DecidableEq, Repr

/-- The device at the other end of the bus, with a state of type `σ`: what it
does when chip select falls, when chip select rises, and which byte it
answers to a byte clocked out by the master. -/
structure Sensor (σ : Type) where
  select : σ → σ
  deselect : σ → σ
  exchange : σ → Nat → σ × Nat

/-- The state the driver works on: the pin `CSB` (`LATAbits.LA5`), the MSSP
buffer `SSPBUF`, the buffer-full flag `BF` (bit 0 of `SSPSTAT`), the overflow
flag `SSPOV`, the global `t_fine` (BME280.h line 73), the sensor, and the log
of bus events. -/
structure Machine (σ : Type) where
  CSB : Nat
  SSPBUF : Nat
  BF : Bool
  SSPOV : Nat
  t_fine : Int
  dev : σ
  bus : List BusEvent

variable {σ : Type}

/-- Assignment `CSB = v`: the pin is driven, the sensor sees the edge. -/
def setCSB (S : Sensor σ) (v : Nat) (m : Machine σ) : Machine σ :=
  { m with
    CSB := v
    dev := if v = 0 then S.select m.dev else S.deselect m.dev
    bus := m.bus ++ [BusEvent.cs v] }

/-- Assignment `SSPBUF = b`: the master clocks the low 8 bits of `b` out and
one byte in; the received byte is left in `SSPBUF` and `BF` is set. -/
def writeSSPBUF (S : Sensor σ) (b : Nat) (m : Machine σ) : Machine σ :=
  { m with
    SSPBUF := (S.exchange m.dev (b % 256)).2 % 256
    BF := true
    dev := (S.exchange m.dev (b % 256)).1
    bus := m.bus ++ [BusEvent.xfer (b % 256) ((S.exchange m.dev (b % 256)).2 % 256)] }

/-- The loop `while ((SSPSTAT & 0x01) == 0);`: it is left when `BF` is set and
never left otherwise (`none`: the caller hangs). -/
def waitBF (m : Machine σ) : Option (Machine σ) :=
  if m.BF then some m else none

/-- Reading `SSPBUF`: gives the buffered byte and clears `BF`. -/
def readSSPBUF (m : Machine σ) : Nat × Machine σ :=
  (m.SSPBUF, { m with BF := false })

/-! ## Register access (`BME280.c` lines 56-101) -/

/-- Function `unsigned char readSPI8bit(char reg)`, lines 56-67. -/
def readSPI8bit (S : Sensor σ) (reg : Nat) (m : Machine σ) : Option (Nat × Machine σ) := do
  let m := setCSB S 0 m
  let m := writeSSPBUF S reg m
  let m := { m with SSPOV := 0 }
  let m ← waitBF m
  let (_trash, m) := readSSPBUF m
  let m := writeSSPBUF S 0 m
  let m ← waitBF m
  let m := setCSB S 1 m
  let (val, m) := readSSPBUF m
  pure (val % 256, m)

/-- Function `unsigned int readSPI16bit(char reg)`, lines 81-86: `val` is a 16-bit
`unsigned int`, the argument `reg+1` is converted to `char`. -/
def readSPI16bit (S : Sensor σ) (reg : Nat) (m : Machine σ) : Option (Nat × Machine σ) := do
  let (val, m) ← readSPI8bit S reg m
  let (lsb, m) ← readSPI8bit S ((reg + 1) % 256) m
  let val := ((val <<< 8) % 65536 ||| lsb) % 65536
  pure (val, m)

/-- Function `unsigned int readSPI16bit_u_LE(char reg)`, lines 69-73. -/
def readSPI16bit_u_LE (S : Sensor σ) (reg : Nat) (m : Machine σ) : Option (Nat × Machine σ) := do
  let (val, m) ← readSPI16bit S reg m
  pure (((val >>> 8) ||| (val <<< 8) % 65536) % 65536, m)

/-- Function `signed int readSPI16bit_s_LE(char reg)`, lines 75-77. -/
def readSPI16bit_s_LE (S : Sensor σ) (reg : Nat) (m : Machine σ) : Option (Int × Machine σ) := do
  let (val, m) ← readSPI16bit_u_LE S reg m
  pure (toS16 val, m)

/-- Function `void writeSPI(char reg, char data)`, lines 88-101.  `~0x80` is the 16-bit
`int` with pattern `0xFF7F`. -/
def writeSPI (S : Sensor σ) (reg data : Nat) (m : Machine σ) : Option (Unit × Machine σ) := do
  let m := setCSB S 0 m
  let m := writeSSPBUF S (reg &&& 0xFF7F) m
  let m := { m with SSPOV := 0 }
  let m ← waitBF m
  let (_trash, m) := readSSPBUF m
  let m := writeSSPBUF S data m
  let m := { m with SSPOV := 0 }
  let m ← waitBF m
  let m := setCSB S 1 m
  let (_trash, m) := readSSPBUF m
  pure ((), m)

/-- Function `void BME280_init()`, lines 51-54, with `CTRL_HUM = 0xF2` and
`CONTROL = 0xF4`. -/
def BME280_init (S : Sensor σ) (m : Machine σ) : Option (Unit × Machine σ) := do
  let (_, m) ← writeSPI S 0xF2 0x01 m
  let (_, m) ← writeSPI S 0xF4 0x25 m
  pure ((), m)

/-- Function `float readTemp(void)`, lines 103-127.  The value is the integer that is
converted to `float` and divided by 100. -/
def readTemp (S : Sensor σ) (m : Machine σ) : Option (Int × Machine σ) := do
  let (dig_T1, m) ← readSPI16bit_u_LE S 0x88 m
  let (dig_T2, m) ← readSPI16bit_s_LE S 0x8A m
  let (dig_T3, m) ← readSPI16bit_s_LE S 0x8C m
  let (adc_T, m) ← readSPI16bit S 0xFA m
  let adc_T := (adc_T <<< 8) % 4294967296
  let (xlsb, m) ← readSPI8bit S (0xFA + 2) m
  let adc_T := adc_T ||| xlsb
  let adc_T := adc_T >>> 4
  let m := { m with t_fine := readTemp_t_fine dig_T1 dig_T2 dig_T3 adc_T }
  pure (readTemp_T m.t_fine, m)

/-- Function `float readHumidity(void)`, lines 129-158.  The coefficient bytes are below
256, so the 16-bit `int` expressions of lines 134-136 do not overflow.  The
value is the integer that is converted to `float` and divided by 1024. -/
def readHumidity (S : Sensor σ) (m : Machine σ) : Option (Int × Machine σ) := do
  let (dig_H1, m) ← readSPI8bit S 0xA1 m
  let (dig_H2, m) ← readSPI16bit_s_LE S 0xE1 m
  let (dig_H3, m) ← readSPI8bit S 0xE3 m
  let (h4_hi, m) ← readSPI8bit S 0xE4 m
  let (h4_lo, m) ← readSPI8bit S (0xE4 + 1) m
  let dig_H4 := (h4_hi <<< 4) ||| (h4_lo &&& 0xF)
  let (h5_hi, m) ← readSPI8bit S (0xE5 + 1) m
  let (h5_lo, m) ← readSPI8bit S 0xE5 m
  let dig_H5 := (h5_hi <<< 4) ||| (h5_lo >>> 4)
  let (dig_H6, m) ← readSPI8bit S 0xE7 m
  let (adc_H, m) ← readSPI16bit S 0xFD m
  pure (readHumidity_n dig_H1 dig_H2 dig_H3 dig_H4 dig_H5 dig_H6 adc_H m.t_fine, m)

/-- Function `float readPressure(void)`, lines 160-202.  The value is the integer that
is converted to `float`; `none` also stands for a division by zero. -/
def readPressure (S : Sensor σ) (m : Machine σ) : Option (Int × Machine σ) := do
  let (dig_P1, m) ← readSPI16bit_u_LE S 0x8E m
  let (dig_P2, m) ← readSPI16bit_s_LE S 0x90 m
  let (dig_P3, m) ← readSPI16bit_s_LE S 0x92 m
  let (dig_P4, m) ← readSPI16bit_s_LE S 0x94 m
  let (dig_P5, m) ← readSPI16bit_s_LE S 0x96 m
  let (dig_P6, m) ← readSPI16bit_s_LE S 0x98 m
  let (dig_P7, m) ← readSPI16bit_s_LE S 0x9A m
  let (dig_P8, m) ← readSPI16bit_s_LE S 0x9C m
  let (dig_P9, m) ← readSPI16bit_s_LE S 0x9E m
  let (adc_P, m) ← readSPI16bit S 0xF7 m
  let adc_P := (adc_P <<< 8) % 4294967296
  let (xlsb, m) ← readSPI8bit S (0xF7 + 2) m
  let adc_P := adc_P ||| xlsb
  let adc_P := adc_P >>> 4
  let pressure ← readPressure_value dig_P1 dig_P2 dig_P3 dig_P4 dig_P5 dig_P6 dig_P7 dig_P8
    dig_P9 adc_P m.t_fine
  pure (pressure, m)

/-! ## A register-file sensor following the BME280 SPI framing -/

/-- Where the sensor is inside a chip-select frame. -/
inductive Phase where
  | idle
  | control
  | reading (addr : Nat)
  | writing (addr : Nat)

/-- A simulated sensor: a register file addressed `0x80 .. 0xFF`, the position
in the frame, and the byte the master samples while the sensor does not drive
its output. -/
structure RegFile where
  regs : Nat → Nat
  phase : Phase
  undriven : Nat

/-- The command-bit framing: the first byte of a frame is a control byte; with
bit 7 set it starts a read of the register of that address (the following
exchanges return the register contents, the address incrementing), with bit 7
clear it announces a write to the register with the same low 7 address bits,
whose data is the next byte. -/
def regSensor : Sensor RegFile where
  select s := { s with phase := Phase.control }
  deselect s := { s with phase := Phase.idle }
  exchange s b :=
    match s.phase with
    | Phase.idle => (s, s.undriven)
    | Phase.control =>
        if 128 ≤ b then ({ s with phase := Phase.reading b }, s.undriven)
        else ({ s with phase := Phase.writing (b + 128) }, s.undriven)
    | Phase.reading a => ({ s with phase := Phase.reading (a + 1) }, s.regs a)
    | Phase.writing a =>
        ({ s with regs := fun x => if x = a then b else s.regs x, phase := Phase.control },
          s.undriven)

/-- A machine after reset (chip select high, flags clear, `t_fine` still 0)
wired to a register-file sensor holding `regs`. -/
def boot (regs : Nat → Nat) : Machine RegFile :=
  { CSB := 1, SSPBUF := 0, BF := false, SSPOV := 0, t_fine := 0,
    dev := { regs := regs, phase := Phase.idle, undriven := 255 }, bus := [] }

/-- Registers of the datasheet's temperature example: `dig_T1 = 27504`,
`dig_T2 = 26435`, `dig_T3 = -1000` little-endian at `0x88`, `0x8A`, `0x8C`, and
the raw sample `519888 = 0x7EED0` in `0xFA .. 0xFC`. -/
def datasheetRegs : Nat → Nat := fun a =>
  if a = 0x88 then 0x70 else if a = 0x89 then 0x6B
  else if a = 0x8A then 0x43 else if a = 0x8B then 0x67
  else if a = 0x8C then 0x18 else if a = 0x8D then 0xFC
  else if a = 0xFA then 0x7E else if a = 0xFB then 0xED
  else if a = 0xFC then 0x00 else 0

/-- Registers of a dry, cold sample: humidity coefficients `dig_H1 = 75`,
`dig_H2 = 360`, `dig_H3 = 0`, `dig_H4 = 320`, `dig_H5 = 50`, `dig_H6 = 30`, raw
humidity `adc_H = 5000`; temperature coefficients `dig_T1 = 27504`,
`dig_T2 = 26435`, `dig_T3 = 50` and raw temperature `471808 = 0x73300`. -/
def dryColdRegs : Nat → Nat := fun a =>
  if a = 0x88 then 0x70 else if a = 0x89 then 0x6B
  else if a = 0x8A then 0x43 else if a = 0x8B then 0x67
  else if a = 0x8C then 0x32 else if a = 0x8D then 0x00
  else if a = 0xFA then 0x73 else if a = 0xFB then 0x30
  else if a = 0xFC then 0x00
  else if a = 0xA1 then 75
  else if a = 0xE1 then 0x68 else if a = 0xE2 then 0x01
  else if a = 0xE3 then 0
  else if a = 0xE4 then 0x14 else if a = 0xE5 then 0x20 else if a = 0xE6 then 0x03
  else if a = 0xE7 then 30
  else if a = 0xFD then 0x13 else if a = 0xFE then 0x88
  else 0

/-- Humidity registers with the byte `0xFF` in `0xE7` (`dig_H6`): `dig_H1 = 75`,
`dig_H2 = 360`, `dig_H3 = 0`, `dig_H4 = 320`, `dig_H5 = 50`, raw humidity
`adc_H = 30000 = 0x7530`. -/
def humidityFFRegs : Nat → Nat := fun a =>
  if a = 0xA1 then 75
  else if a = 0xE1 then 0x68 else if a = 0xE2 then 0x01
  else if a = 0xE3 then 0
  else if a = 0xE4 then 0x14 else if a = 0xE5 then 0x20 else if a = 0xE6 then 0x03
  else if a = 0xE7 then 0xFF
  else if a = 0xFD then 0x75 else if a = 0xFE then 0x30
  else 0

/-- Pressure registers of the datasheet example: `dig_P1 = 36477`,
`dig_P2 = -10685`, `dig_P3 = 3024`, `dig_P4 = 2855`, `dig_P5 = 140`,
`dig_P6 = -7`, `dig_P7 = 15500`, `dig_P8 = -14600`, `dig_P9 = 6000`, raw
pressure `adc_P = 415148 = 0x655AC`. -/
def pressureRegs : Nat → Nat := fun a =>
  if a = 0x8E then 0x7D else if a = 0x8F then 0x8E
  else if a = 0x90 then 0x43 else if a = 0x91 then 0xD6
  else if a = 0x92 then 0xD0 else if a = 0x93 then 0x0B
  else if a = 0x94 then 0x27 else if a = 0x95 then 0x0B
  else if a = 0x96 then 0x8C else if a = 0x97 then 0x00
  else if a = 0x98 then 0xF9 else if a = 0x99 then 0xFF
  else if a = 0x9A then 0x8C else if a = 0x9B then 0x3C
  else if a = 0x9C then 0xF8 else if a = 0x9D then 0xC6
  else if a = 0x9E then 0x70 else if a = 0x9F then 0x17
  else if a = 0xF7 then 0x65 else if a = 0xF8 then 0x5A
  else if a = 0xF9 then 0xC0
  else 0

/-! ## The vendor reference formulas

The compensation functions of the BME280 datasheet, in which every variable is
a signed 32-bit integer (`BME280_S32_t`) unless cast, `>>` on them is an
arithmetic shift and the arithmetic is modulo 2^32. -/

/-- Reference `t_fine` of `BME280_compensate_T_int32`:
`var1 = (((adc_T>>3) - (dig_T1<<1)) * dig_T2) >> 11`,
`var2 = (((((adc_T>>4) - dig_T1) * ((adc_T>>4) - dig_T1)) >> 12) * dig_T3) >> 14`,
`t_fine = var1 + var2`, all signed. -/
def BME280_compensate_T_int32_t_fine (dig_T1 dig_T2 dig_T3 adc_T : Int) : Int :=
  let var1 := shr (s32 (s32 (shr adc_T 3 - s32 (shl dig_T1 1)) * dig_T2)) 11
  let var2 := shr (s32 (shr (s32 (s32 (shr adc_T 4 - dig_T1) * s32 (shr adc_T 4 - dig_T1))) 12
    * dig_T3)) 14
  s32 (var1 + var2)

/-- Reference output of `BME280_compensate_T_int32`: `(t_fine * 5 + 128) >> 8`,
the temperature in hundredths of a degree Celsius. -/
def BME280_compensate_T_int32 (dig_T1 dig_T2 dig_T3 adc_T : Int) : Int :=
  shr (s32 (s32 (BME280_compensate_T_int32_t_fine dig_T1 dig_T2 dig_T3 adc_T * 5) + 128)) 8

/-- Reference `bme280_compensate_H_int32`: the humidity formula with a signed
32-bit `v_x1_u32r`, arithmetic right shifts, the clamp to 0 when negative and
to 419430400 when larger, and the output `v_x1_u32r >> 12`. -/
def bme280_compensate_H_int32 (dig_H1 dig_H2 dig_H3 dig_H4 dig_H5 dig_H6 adc_H t_fine : Int) :
    Int :=
  let v := s32 (t_fine - 76800)
  let v := s32 (
    shr (s32 (s32 (s32 (s32 (shl adc_H 14) - s32 (shl dig_H4 20)) - s32 (dig_H5 * v))
      + 16384)) 15
    *
    shr (s32 (s32 (s32 (shr (s32 (shr (s32 (v * dig_H6)) 10
        * s32 (shr (s32 (v * dig_H3)) 11 + 32768))) 10 + 2097152) * dig_H2) + 8192)) 14)
  let v := s32 (v - shr (s32 (shr (s32 (shr v 15 * shr v 15)) 7 * dig_H1)) 4)
  let v := if v < 0 then 0 else v
  let v := if v > 419430400 then 419430400 else v
  u32 (shr v 12)

/-- Reference `BME280_compensate_P_int32`: `adc_P` is a signed 32-bit argument,
`p` is unsigned, the result is 0 when the factor `var1` is 0, and `p` is
`(p << 1) / var1` when `p < 2^31` and `(p / var1) * 2` otherwise. -/
def BME280_compensate_P_int32 (dig_P1 dig_P2 dig_P3 dig_P4 dig_P5 dig_P6 dig_P7 dig_P8 dig_P9
    adc_P t_fine : Int) : Int :=
  let var1 := s32 (shr (s32 t_fine) 1 - 64000)
  let var2 := s32 (shr (s32 (shr var1 2 * shr var1 2)) 11 * s32 dig_P6)
  let var2 := s32 (var2 + s32 (shl (s32 (var1 * s32 dig_P5)) 1))
  let var2 := s32 (shr var2 2 + s32 (shl (s32 dig_P4) 16))
  let var1 := shr (s32 (shr (s32 (dig_P3 * shr (s32 (shr var1 2 * shr var1 2)) 13)) 3
    + shr (s32 (s32 dig_P2 * var1)) 1)) 18
  let var1 := shr (s32 (s32 (32768 + var1) * s32 dig_P1)) 15
  if var1 = 0 then 0
  else
    let p := u32 (u32 (u32 (s32 (1048576 - adc_P)) - u32 (shr var2 12)) * 3125)
    let p := if p < 0x80000000 then u32 (shl p 1) / u32 var1 else u32 (p / u32 var1 * 2)
    let var1 := shr (s32 (s32 dig_P9 * s32 (shr (u32 (shr p 3 * shr p 3)) 13))) 12
    let var2 := shr (s32 (s32 (shr p 2) * s32 dig_P8)) 13
    u32 (s32 (s32 p + shr (s32 (s32 (var1 + var2) + dig_P7)) 4))

/-! ## Arithmetic lemmas -/

theorem shr_eq_div (x : Int) (k : Nat) : shr x k = x / 2 ^ k := rfl

theorem u32_s32 (x : Int) : u32 (s32 x) = u32 x := by
  unfold u32 s32
  omega

theorem u32_nonneg (x : Int) : 0 ≤ u32 x := by
  unfold u32
  omega

theorem u32_lt (x : Int) : u32 x < 4294967296 := by
  unfold u32
  omega

theorem u32_shr15_s32_ne_zero (x : Int) (h : shr (s32 x) 15 ≠ 0) :
    u32 (shr (s32 x) 15) ≠ 0 := by
  rw [shr_eq_div] at h ⊢
  norm_num at h ⊢
  unfold u32 s32 at *
  omega

theorem readHumidity_clamp_bounds (v : Int) :
    0 ≤ readHumidity_clamp v ∧ readHumidity_clamp v ≤ 419430400 := by
  unfold readHumidity_clamp
  dsimp only
  constructor <;> split_ifs <;> omega

theorem readHumidity_n_bounds (dig_H1 dig_H2 dig_H3 dig_H4 dig_H5 dig_H6 adc_H t_fine : Int) :
    0 ≤ readHumidity_n dig_H1 dig_H2 dig_H3 dig_H4 dig_H5 dig_H6 adc_H t_fine
    ∧ readHumidity_n dig_H1 dig_H2 dig_H3 dig_H4 dig_H5 dig_H6 adc_H t_fine ≤ 102400 := by
  have h := readHumidity_clamp_bounds
    (readHumidity_preclamp dig_H1 dig_H2 dig_H3 dig_H4 dig_H5 dig_H6 adc_H t_fine)
  unfold readHumidity_n
  rw [shr_eq_div]
  norm_num
  omega

theorem readPressure_p_eq (dig_P1 dig_P2 dig_P3 dig_P4 dig_P5 dig_P6 dig_P7 dig_P8 dig_P9
    adc_P t_fine : Int) :
    readPressure_p dig_P1 dig_P2 dig_P3 dig_P4 dig_P5 dig_P6 dig_P7 dig_P8 dig_P9 adc_P t_fine
      = some (if readPressure_var1 dig_P1 dig_P2 dig_P3 (readPressure_var1a t_fine) = 0 then none
          else some (BME280_compensate_P_int32 dig_P1 dig_P2 dig_P3 dig_P4 dig_P5 dig_P6 dig_P7
            dig_P8 dig_P9 adc_P t_fine)) := by
  have hd := u32_shr15_s32_ne_zero
  have hk : u32 (u32 1048576 - adc_P) = u32 (s32 (1048576 - adc_P)) := by
    unfold u32 s32
    omega
  unfold readPressure_p BME280_compensate_P_int32 readPressure_div readPressure_fin
    readPressure_var2 readPressure_var1 readPressure_var1a udiv
  simp only [hk]
  split_ifs <;> simp_all

/-! ## What the register accessors do to the machine -/

theorem readSPI8bit_eq (S : Sensor σ) (reg : Nat) (m : Machine σ) :
    readSPI8bit S reg m = some
      ((S.exchange (S.exchange (S.select m.dev) (reg % 256)).1 0).2 % 256,
        { CSB := 1
          SSPBUF := (S.exchange (S.exchange (S.select m.dev) (reg % 256)).1 0).2 % 256
          BF := false
          SSPOV := 0
          t_fine := m.t_fine
          dev := S.deselect (S.exchange (S.exchange (S.select m.dev) (reg % 256)).1 0).1
          bus := m.bus ++ [BusEvent.cs 0,
            BusEvent.xfer (reg % 256) ((S.exchange (S.select m.dev) (reg % 256)).2 % 256),
            BusEvent.xfer 0 ((S.exchange (S.exchange (S.select m.dev) (reg % 256)).1 0).2 % 256),
            BusEvent.cs 1] }) := by
  simp [readSPI8bit, setCSB, writeSSPBUF, waitBF, readSSPBUF]

theorem writeSPI_eq (S : Sensor σ) (reg data : Nat) (m : Machine σ) :
    writeSPI S reg data m = some
      ((),
        { CSB := 1
          SSPBUF := (S.exchange (S.exchange (S.select m.dev) ((reg &&& 0xFF7F) % 256)).1
            (data % 256)).2 % 256
          BF := false
          SSPOV := 0
          t_fine := m.t_fine
          dev := S.deselect (S.exchange (S.exchange (S.select m.dev) ((reg &&& 0xFF7F) % 256)).1
            (data % 256)).1
          bus := m.bus ++ [BusEvent.cs 0,
            BusEvent.xfer ((reg &&& 0xFF7F) % 256)
              ((S.exchange (S.select m.dev) ((reg &&& 0xFF7F) % 256)).2 % 256),
            BusEvent.xfer (data % 256)
              ((S.exchange (S.exchange (S.select m.dev) ((reg &&& 0xFF7F) % 256)).1
                (data % 256)).2 % 256),
            BusEvent.cs 1] }) := by
  simp [writeSPI, setCSB, writeSSPBUF, waitBF, readSSPBUF]

theorem readSPI8bit_acc (S : Sensor σ) (reg : Nat) (m : Machine σ) :
    ∃ (v : Nat) (m' : Machine σ), v < 256 ∧ ∀ t, readSPI8bit S reg { m with t_fine := t }
      = some (v, { m' with t_fine := t }) := by
  refine ⟨(S.exchange (S.exchange (S.select m.dev) (reg % 256)).1 0).2 % 256,
    { setCSB S 1 (writeSSPBUF S 0 (writeSSPBUF S reg (setCSB S 0 m))) with
      BF := false, SSPOV := 0 },
    Nat.mod_lt _ (by norm_num), fun t => ?_⟩
  rw [readSPI8bit_eq]
  simp [setCSB, writeSSPBUF]

theorem writeSPI_acc (S : Sensor σ) (reg data : Nat) (m : Machine σ) :
    ∃ m' : Machine σ, ∀ t, writeSPI S reg data { m with t_fine := t }
      = some ((), { m' with t_fine := t }) := by
  refine ⟨{ setCSB S 1 (writeSSPBUF S data (writeSSPBUF S (reg &&& 0xFF7F) (setCSB S 0 m))) with
      BF := false, SSPOV := 0 }, fun t => ?_⟩
  rw [writeSPI_eq]
  simp [setCSB, writeSSPBUF]

/-- One step of a `do` block: a call that is known to return is replaced by its
result. -/
theorem bind_step {α β M : Type} {f : Option (α × M)} {a : α} {m : M} (h : f = some (a, m))
    (K : α × M → Option β) : (f >>= K) = K (a, m) := by
  rw [h]
  rfl

theorem readSPI16bit_acc (S : Sensor σ) (reg : Nat) (m : Machine σ) :
    ∃ (v : Nat) (m' : Machine σ), v < 65536 ∧ ∀ t, readSPI16bit S reg { m with t_fine := t }
      = some (v, { m' with t_fine := t }) := by
  obtain ⟨a, m1, _, h1⟩ := readSPI8bit_acc S reg m
  obtain ⟨b, m2, _, h2⟩ := readSPI8bit_acc S ((reg + 1) % 256) m1
  refine ⟨((a <<< 8) % 65536 ||| b) % 65536, m2, Nat.mod_lt _ (by norm_num), fun t => ?_⟩
  unfold readSPI16bit
  rw [bind_step (h1 t)]
  dsimp only
  rw [bind_step (h2 t)]
  rfl

theorem readSPI16bit_u_LE_acc (S : Sensor σ) (reg : Nat) (m : Machine σ) :
    ∃ (v : Nat) (m' : Machine σ), v < 65536 ∧ ∀ t, readSPI16bit_u_LE S reg { m with t_fine := t }
      = some (v, { m' with t_fine := t }) := by
  obtain ⟨a, m1, _, h1⟩ := readSPI16bit_acc S reg m
  refine ⟨((a >>> 8) ||| (a <<< 8) % 65536) % 65536, m1, Nat.mod_lt _ (by norm_num),
    fun t => ?_⟩
  unfold readSPI16bit_u_LE
  rw [bind_step (h1 t)]
  rfl

theorem readSPI16bit_s_LE_acc (S : Sensor σ) (reg : Nat) (m : Machine σ) :
    ∃ (v : Int) (m' : Machine σ), ∀ t, readSPI16bit_s_LE S reg { m with t_fine := t }
      = some (v, { m' with t_fine := t }) := by
  obtain ⟨a, m1, _, h1⟩ := readSPI16bit_u_LE_acc S reg m
  refine ⟨toS16 a, m1, fun t => ?_⟩
  unfold readSPI16bit_s_LE
  rw [bind_step (h1 t)]
  rfl

theorem BME280_init_acc (S : Sensor σ) (m : Machine σ) :
    ∃ m' : Machine σ, ∀ t, BME280_init S { m with t_fine := t }
      = some ((), { m' with t_fine := t }) := by
  obtain ⟨m1, h1⟩ := writeSPI_acc S 0xF2 0x01 m
  obtain ⟨m2, h2⟩ := writeSPI_acc S 0xF4 0x25 m1
  refine ⟨m2, fun t => ?_⟩
  unfold BME280_init
  rw [bind_step (h1 t)]
  dsimp only
  rw [bind_step (h2 t)]
  rfl

theorem readTemp_acc (S : Sensor σ) (m : Machine σ) :
    ∃ (dig_T1 dig_T2 dig_T3 adc_T : Int) (m' : Machine σ), ∀ t,
      readTemp S { m with t_fine := t }
        = some (readTemp_T (readTemp_t_fine dig_T1 dig_T2 dig_T3 adc_T),
            { m' with t_fine := readTemp_t_fine dig_T1 dig_T2 dig_T3 adc_T }) := by
  obtain ⟨a1, m1, _, h1⟩ := readSPI16bit_u_LE_acc S 0x88 m
  obtain ⟨a2, m2, h2⟩ := readSPI16bit_s_LE_acc S 0x8A m1
  obtain ⟨a3, m3, h3⟩ := readSPI16bit_s_LE_acc S 0x8C m2
  obtain ⟨a4, m4, _, h4⟩ := readSPI16bit_acc S 0xFA m3
  obtain ⟨a5, m5, _, h5⟩ := readSPI8bit_acc S (0xFA + 2) m4
  refine ⟨(a1 : Nat), a2, a3, ((((a4 <<< 8) % 4294967296 ||| a5) >>> 4 : Nat) : Int), m5,
    fun t => ?_⟩
  unfold readTemp
  rw [bind_step (h1 t)]
  dsimp only
  rw [bind_step (h2 t)]
  dsimp only
  rw [bind_step (h3 t)]
  dsimp only
  rw [bind_step (h4 t)]
  dsimp only
  rw [bind_step (h5 t)]
  rfl

theorem readHumidity_acc (S : Sensor σ) (m : Machine σ) :
    ∃ (dig_H1 dig_H2 dig_H3 dig_H4 dig_H5 dig_H6 adc_H : Int) (m' : Machine σ), ∀ t,
      readHumidity S { m with t_fine := t }
        = some (readHumidity_n dig_H1 dig_H2 dig_H3 dig_H4 dig_H5 dig_H6 adc_H t,
            { m' with t_fine := t }) := by
  obtain ⟨a1, m1, _, h1⟩ := readSPI8bit_acc S 0xA1 m
  obtain ⟨a2, m2, h2⟩ := readSPI16bit_s_LE_acc S 0xE1 m1
  obtain ⟨a3, m3, _, h3⟩ := readSPI8bit_acc S 0xE3 m2
  obtain ⟨a4, m4, _, h4⟩ := readSPI8bit_acc S 0xE4 m3
  obtain ⟨a5, m5, _, h5⟩ := readSPI8bit_acc S (0xE4 + 1) m4
  obtain ⟨a6, m6, _, h6⟩ := readSPI8bit_acc S (0xE5 + 1) m5
  obtain ⟨a7, m7, _, h7⟩ := readSPI8bit_acc S 0xE5 m6
  obtain ⟨a8, m8, _, h8⟩ := readSPI8bit_acc S 0xE7 m7
  obtain ⟨a9, m9, _, h9⟩ := readSPI16bit_acc S 0xFD m8
  refine ⟨(a1 : Nat), a2, (a3 : Nat), (((a4 <<< 4) ||| (a5 &&& 0xF) : Nat) : Int),
    (((a6 <<< 4) ||| (a7 >>> 4) : Nat) : Int), (a8 : Nat), (a9 : Nat), m9, fun t => ?_⟩
  unfold readHumidity
  rw [bind_step (h1 t)]
  dsimp only
  rw [bind_step (h2 t)]
  dsimp only
  rw [bind_step (h3 t)]
  dsimp only
  rw [bind_step (h4 t)]
  dsimp only
  rw [bind_step (h5 t)]
  dsimp only
  rw [bind_step (h6 t)]
  dsimp only
  rw [bind_step (h7 t)]
  dsimp only
  rw [bind_step (h8 t)]
  dsimp only
  rw [bind_step (h9 t)]
  rfl

theorem BME280_compensate_P_int32_guard (dig_P1 dig_P2 dig_P3 dig_P4 dig_P5 dig_P6 dig_P7
    dig_P8 dig_P9 adc_P t_fine : Int)
    (h : readPressure_var1 dig_P1 dig_P2 dig_P3 (readPressure_var1a t_fine) = 0) :
    BME280_compensate_P_int32 dig_P1 dig_P2 dig_P3 dig_P4 dig_P5 dig_P6 dig_P7 dig_P8 dig_P9
      adc_P t_fine = 0 := by
  unfold readPressure_var1 readPressure_var1a at h
  unfold BME280_compensate_P_int32
  dsimp only at h ⊢
  rw [if_pos h]

theorem readPressure_value_eq (dig_P1 dig_P2 dig_P3 dig_P4 dig_P5 dig_P6 dig_P7 dig_P8
    dig_P9 adc_P t_fine : Int) :
    readPressure_value dig_P1 dig_P2 dig_P3 dig_P4 dig_P5 dig_P6 dig_P7 dig_P8 dig_P9
      adc_P t_fine
      = some (BME280_compensate_P_int32 dig_P1 dig_P2 dig_P3 dig_P4 dig_P5 dig_P6 dig_P7 dig_P8
          dig_P9 adc_P t_fine / 1000) := by
  unfold readPressure_value
  rw [readPressure_p_eq]
  by_cases h : readPressure_var1 dig_P1 dig_P2 dig_P3 (readPressure_var1a t_fine) = 0
  · rw [if_pos h, BME280_compensate_P_int32_guard _ _ _ _ _ _ _ _ _ _ _ h]
    rfl
  · rw [if_neg h]
    rfl

theorem readPressure_acc (S : Sensor σ) (m : Machine σ) :
    ∃ (dig_P1 dig_P2 dig_P3 dig_P4 dig_P5 dig_P6 dig_P7 dig_P8 dig_P9 adc_P : Int)
      (m' : Machine σ), ∀ t, ∃ v,
      readPressure_value dig_P1 dig_P2 dig_P3 dig_P4 dig_P5 dig_P6 dig_P7 dig_P8 dig_P9
        adc_P t = some v
      ∧ readPressure S { m with t_fine := t } = some (v, { m' with t_fine := t }) := by
  obtain ⟨a1, m1, _, h1⟩ := readSPI16bit_u_LE_acc S 0x8E m
  obtain ⟨a2, m2, h2⟩ := readSPI16bit_s_LE_acc S 0x90 m1
  obtain ⟨a3, m3, h3⟩ := readSPI16bit_s_LE_acc S 0x92 m2
  obtain ⟨a4, m4, h4⟩ := readSPI16bit_s_LE_acc S 0x94 m3
  obtain ⟨a5, m5, h5⟩ := readSPI16bit_s_LE_acc S 0x96 m4
  obtain ⟨a6, m6, h6⟩ := readSPI16bit_s_LE_acc S 0x98 m5
  obtain ⟨a7, m7, h7⟩ := readSPI16bit_s_LE_acc S 0x9A m6
  obtain ⟨a8, m8, h8⟩ := readSPI16bit_s_LE_acc S 0x9C m7
  obtain ⟨a9, m9, h9⟩ := readSPI16bit_s_LE_acc S 0x9E m8
  obtain ⟨b1, n1, _, k1⟩ := readSPI16bit_acc S 0xF7 m9
  obtain ⟨b2, n2, _, k2⟩ := readSPI8bit_acc S (0xF7 + 2) n1
  refine ⟨(a1 : Nat), a2, a3, a4, a5, a6, a7, a8, a9,
    ((((b1 <<< 8) % 4294967296 ||| b2) >>> 4 : Nat) : Int), n2, fun t => ?_⟩
  have hv := readPressure_value_eq (a1 : Nat) a2 a3 a4 a5 a6 a7 a8 a9
    ((((b1 <<< 8) % 4294967296 ||| b2) >>> 4 : Nat) : Int) t
  refine ⟨_, hv, ?_⟩
  unfold readPressure
  rw [bind_step (h1 t)]
  dsimp only
  rw [bind_step (h2 t)]
  dsimp only
  rw [bind_step (h3 t)]
  dsimp only
  rw [bind_step (h4 t)]
  dsimp only
  rw [bind_step (h5 t)]
  dsimp only
  rw [bind_step (h6 t)]
  dsimp only
  rw [bind_step (h7 t)]
  dsimp only
  rw [bind_step (h8 t)]
  dsimp only
  rw [bind_step (h9 t)]
  dsimp only
  rw [bind_step (k1 t)]
  dsimp only
  rw [bind_step (k2 t)]
  dsimp only
  rw [hv]
  rfl

/-! ## Bytes and 16-bit words -/

theorem and_FF7F_mod (reg : Nat) : (reg &&& 0xFF7F) % 256 = reg % 128 := by
  have h1 : (reg &&& 0xFF7F) % 256 = (reg &&& 0xFF7F) &&& (2 ^ 8 - 1) := by
    rw [Nat.and_pow_two_sub_one_eq_mod]
  have h2 : reg % 128 = reg &&& (2 ^ 7 - 1) := by
    rw [Nat.and_pow_two_sub_one_eq_mod]
  rw [h1, h2, Nat.and_assoc]
  rfl

theorem and_7F (reg : Nat) : reg &&& 0x7F = reg % 128 :=
  Nat.and_pow_two_sub_one_eq_mod reg 7

theorem be16 (hi lo : Nat) (hhi : hi < 256) (hlo : lo < 256) :
    ((hi <<< 8) % 65536 ||| lo) % 65536 = 256 * hi + lo := by
  have h1 : hi <<< 8 = 2 ^ 8 * hi := by rw [Nat.shiftLeft_eq, Nat.mul_comm]
  have h2 : (2 ^ 8 * hi) % 65536 = 2 ^ 8 * hi := Nat.mod_eq_of_lt (by omega)
  rw [h1, h2, ← Nat.mul_add_lt_is_or (by omega : lo < 2 ^ 8)]
  omega

theorem le16 (hi lo : Nat) (hhi : hi < 256) (hlo : lo < 256) :
    (((256 * hi + lo) >>> 8) ||| ((256 * hi + lo) <<< 8) % 65536) % 65536 = 256 * lo + hi := by
  have h1 : (256 * hi + lo) >>> 8 = hi := by
    rw [Nat.shiftRight_eq_div_pow]
    omega
  have h2 : ((256 * hi + lo) <<< 8) % 65536 = 2 ^ 8 * lo := by
    rw [Nat.shiftLeft_eq]
    omega
  rw [h1, h2, Nat.lor_comm, ← Nat.mul_add_lt_is_or (by omega : hi < 2 ^ 8)]
  omega

/-! ## The register-file sensor seen through the accessors -/

theorem regSensor_write (m : Machine RegFile) (addr v : Nat)
    (h1 : 128 ≤ addr) (h2 : addr < 256) (hv : v < 256) :
    ∃ m1 : Machine RegFile, writeSPI regSensor addr v m = some ((), m1)
      ∧ m1.dev = { regs := fun x => if x = addr then v else m.dev.regs x,
                   phase := Phase.idle, undriven := m.dev.undriven }
      ∧ m1.t_fine = m.t_fine := by
  have hm : (addr &&& 0xFF7F) % 256 = addr - 128 := by rw [and_FF7F_mod]; omega
  have hd : v % 256 = v := Nat.mod_eq_of_lt hv
  have hn : ¬ 128 ≤ addr - 128 := by omega
  have hb : addr - 128 + 128 = addr := by omega
  refine ⟨_, writeSPI_eq _ _ _ _, ?_, rfl⟩
  simp [regSensor, hm, hd, hn, hb]

theorem regSensor_read (m : Machine RegFile) (addr : Nat) (h1 : 128 ≤ addr) (h2 : addr < 256) :
    ∃ m1 : Machine RegFile, readSPI8bit regSensor addr m = some (m.dev.regs addr % 256, m1)
      ∧ m1.dev = { m.dev with phase := Phase.idle }
      ∧ m1.t_fine = m.t_fine := by
  have ha : addr % 256 = addr := Nat.mod_eq_of_lt h2
  have e := readSPI8bit_eq regSensor addr m
  simp only [regSensor, ha, h1, if_true] at e
  exact ⟨_, e, rfl, rfl⟩

theorem regSensor_read16 (m : Machine RegFile) (addr : Nat) (h1 : 128 ≤ addr)
    (h2 : addr < 255) :
    ∃ m1 : Machine RegFile,
      readSPI16bit regSensor addr m
        = some (256 * (m.dev.regs addr % 256) + m.dev.regs (addr + 1) % 256, m1)
      ∧ m1.dev = { m.dev with phase := Phase.idle }
      ∧ m1.t_fine = m.t_fine := by
  obtain ⟨m1, e1, d1, t1⟩ := regSensor_read m addr h1 (by omega)
  have hs : (addr + 1) % 256 = addr + 1 := Nat.mod_eq_of_lt (by omega)
  obtain ⟨m2, e2, d2, t2⟩ := regSensor_read m1 (addr + 1) (by omega) (by omega)
  refine ⟨m2, ?_, ?_, ?_⟩
  · unfold readSPI16bit
    rw [bind_step e1]
    dsimp only
    rw [hs, bind_step e2]
    dsimp only
    rw [be16 _ _ (Nat.mod_lt _ (by norm_num)) (Nat.mod_lt _ (by norm_num)), d1]
    rfl
  · rw [d2, d1]
  · rw [t2, t1]

theorem regSensor_read16_u_LE (m : Machine RegFile) (addr : Nat) (h1 : 128 ≤ addr)
    (h2 : addr < 255) :
    ∃ m1 : Machine RegFile,
      readSPI16bit_u_LE regSensor addr m
        = some (256 * (m.dev.regs (addr + 1) % 256) + m.dev.regs addr % 256, m1)
      ∧ m1.dev = { m.dev with phase := Phase.idle }
      ∧ m1.t_fine = m.t_fine := by
  obtain ⟨m1, e1, d1, t1⟩ := regSensor_read16 m addr h1 h2
  refine ⟨m1, ?_, d1, t1⟩
  unfold readSPI16bit_u_LE
  rw [bind_step e1]
  dsimp only
  rw [le16 _ _ (Nat.mod_lt _ (by norm_num)) (Nat.mod_lt _ (by norm_num))]
  rfl

/-! ## Further lemmas on the accessors and the compensation formulas -/

theorem u32_mul (x y : Int) : u32 (u32 x * u32 y) = u32 (x * y) := by
  unfold u32
  exact (Int.mul_emod x y 4294967296).symm

theorem u32_mul_right (x y : Int) : u32 (x * u32 y) = u32 (x * y) := by
  unfold u32
  rw [Int.mul_emod, Int.emod_emod, ← Int.mul_emod]

theorem u32_of_range (x : Int) (h0 : 0 ≤ x) (h1 : x < 4294967296) : u32 x = x := by
  unfold u32
  omega

theorem s32_of_range (x : Int) (h0 : -2147483648 ≤ x) (h1 : x < 2147483648) : s32 x = x := by
  unfold s32
  omega

theorem readTemp_t_fine_eq_of_products (dig_T1 dig_T2 dig_T3 adc_T : Int)
    (hadc0 : 0 ≤ adc_T) (hadc1 : adc_T < 1048576)
    (hT1a : 0 ≤ dig_T1) (hT1b : dig_T1 ≤ 65535)
    (hP1a : 0 ≤ (shr adc_T 3 - 2 * dig_T1) * dig_T2)
    (hP1b : (shr adc_T 3 - 2 * dig_T1) * dig_T2 < 2147483648)
    (hP2a : 0 ≤ (shr adc_T 4 - dig_T1) * (shr adc_T 4 - dig_T1))
    (hP2b : (shr adc_T 4 - dig_T1) * (shr adc_T 4 - dig_T1) < 2147483648)
    (hP3a : 0 ≤ shr ((shr adc_T 4 - dig_T1) * (shr adc_T 4 - dig_T1)) 12 * dig_T3)
    (hP3b : shr ((shr adc_T 4 - dig_T1) * (shr adc_T 4 - dig_T1)) 12 * dig_T3 < 2147483648) :
    readTemp_t_fine dig_T1 dig_T2 dig_T3 adc_T
      = BME280_compensate_T_int32_t_fine dig_T1 dig_T2 dig_T3 adc_T := by
  have e3 : shr adc_T 3 = adc_T / 8 := by rw [shr_eq_div]; norm_num
  have e4 : shr adc_T 4 = adc_T / 16 := by rw [shr_eq_div]; norm_num
  have hs : shl dig_T1 1 = 2 * dig_T1 := by unfold shl; ring
  have ha : -2147483648 ≤ shr adc_T 3 - 2 * dig_T1 ∧ shr adc_T 3 - 2 * dig_T1 < 2147483648 := by
    rw [e3]; omega
  have hd : -2147483648 ≤ shr adc_T 4 - dig_T1 ∧ shr adc_T 4 - dig_T1 < 2147483648 := by
    rw [e4]; omega
  -- the code, in unsigned arithmetic
  have c1 : u32 (u32 (shr adc_T 3 - u32 (shl dig_T1 1)) * u32 dig_T2)
      = (shr adc_T 3 - 2 * dig_T1) * dig_T2 := by
    rw [hs, u32_of_range (2 * dig_T1) (by omega) (by omega), u32_mul,
      u32_of_range _ hP1a (by omega)]
  have c2 : u32 (u32 (shr adc_T 4 - dig_T1) * u32 (shr adc_T 4 - dig_T1))
      = (shr adc_T 4 - dig_T1) * (shr adc_T 4 - dig_T1) := by
    rw [u32_mul, u32_of_range _ hP2a (by omega)]
  have c3 : u32 (shr ((shr adc_T 4 - dig_T1) * (shr adc_T 4 - dig_T1)) 12 * u32 dig_T3)
      = shr ((shr adc_T 4 - dig_T1) * (shr adc_T 4 - dig_T1)) 12 * dig_T3 := by
    rw [u32_mul_right, u32_of_range _ hP3a (by omega)]
  -- the reference, in signed arithmetic
  have r1 : s32 (s32 (shr adc_T 3 - s32 (shl dig_T1 1)) * dig_T2)
      = (shr adc_T 3 - 2 * dig_T1) * dig_T2 := by
    rw [hs, s32_of_range (2 * dig_T1) (by omega) (by omega), s32_of_range _ ha.1 ha.2,
      s32_of_range _ (by omega) hP1b]
  have r2 : s32 (s32 (shr adc_T 4 - dig_T1) * s32 (shr adc_T 4 - dig_T1))
      = (shr adc_T 4 - dig_T1) * (shr adc_T 4 - dig_T1) := by
    rw [s32_of_range _ hd.1 hd.2, s32_of_range _ (by omega) hP2b]
  have r3 : s32 (shr ((shr adc_T 4 - dig_T1) * (shr adc_T 4 - dig_T1)) 12 * dig_T3)
      = shr ((shr adc_T 4 - dig_T1) * (shr adc_T 4 - dig_T1)) 12 * dig_T3 := by
    rw [s32_of_range _ (by omega) hP3b]
  have q1 : 0 ≤ shr ((shr adc_T 3 - 2 * dig_T1) * dig_T2) 11
      ∧ shr ((shr adc_T 3 - 2 * dig_T1) * dig_T2) 11 < 2147483648 := by
    rw [shr_eq_div]; norm_num; omega
  have q2 : 0 ≤ shr (shr ((shr adc_T 4 - dig_T1) * (shr adc_T 4 - dig_T1)) 12 * dig_T3) 14
      ∧ shr (shr ((shr adc_T 4 - dig_T1) * (shr adc_T 4 - dig_T1)) 12 * dig_T3) 14
        < 2147483648 := by
    rw [shr_eq_div (_ * dig_T3)]; norm_num; omega
  unfold readTemp_t_fine readTemp_var1 readTemp_var2 BME280_compensate_T_int32_t_fine
  dsimp only
  rw [c1, c2, c3, r1, r2, r3, s32_of_range _ (by omega) q1.2, s32_of_range _ (by omega) q2.2]

theorem swap16 (w : Nat) (hw : w < 65536) :
    ((w >>> 8) ||| (w <<< 8) % 65536) % 65536 = 256 * (w % 256) + w / 256 := by
  have h := le16 (w / 256) (w % 256) (by omega) (Nat.mod_lt _ (by norm_num))
  have e : 256 * (w / 256) + w % 256 = w := by omega
  rw [e] at h
  exact h

theorem readSPI8bit_some (S : Sensor σ) (reg : Nat) (m : Machine σ) :
    ∃ (v : Nat) (m' : Machine σ), readSPI8bit S reg m = some (v, m') ∧ v < 256
      ∧ m'.t_fine = m.t_fine :=
  ⟨_, _, readSPI8bit_eq S reg m, Nat.mod_lt _ (by norm_num), rfl⟩

theorem readSPI16bit_some (S : Sensor σ) (reg : Nat) (m : Machine σ) :
    ∃ (v1 v2 : Nat) (m1 m2 : Machine σ),
      readSPI8bit S reg m = some (v1, m1)
      ∧ readSPI8bit S ((reg + 1) % 256) m1 = some (v2, m2)
      ∧ readSPI16bit S reg m = some (256 * v1 + v2, m2)
      ∧ v1 < 256 ∧ v2 < 256 ∧ m2.t_fine = m.t_fine := by
  obtain ⟨v1, m1, e1, b1, t1⟩ := readSPI8bit_some S reg m
  obtain ⟨v2, m2, e2, b2, t2⟩ := readSPI8bit_some S ((reg + 1) % 256) m1
  refine ⟨v1, v2, m1, m2, e1, e2, ?_, b1, b2, by rw [t2, t1]⟩
  unfold readSPI16bit
  rw [bind_step e1]
  dsimp only
  rw [bind_step e2]
  dsimp only
  rw [be16 v1 v2 b1 b2]
  rfl

theorem readSPI16bit_u_LE_some (S : Sensor σ) (reg : Nat) (m : Machine σ) :
    ∃ (w : Nat) (m' : Machine σ),
      readSPI16bit S reg m = some (w, m')
      ∧ readSPI16bit_u_LE S reg m = some (256 * (w % 256) + w / 256, m')
      ∧ w < 65536 ∧ m'.t_fine = m.t_fine := by
  obtain ⟨v1, v2, m1, m2, _, _, e, b1, b2, t⟩ := readSPI16bit_some S reg m
  refine ⟨256 * v1 + v2, m2, e, ?_, by omega, t⟩
  unfold readSPI16bit_u_LE
  rw [bind_step e]
  dsimp only
  rw [swap16 _ (by omega)]
  rfl

theorem readSPI16bit_s_LE_some (S : Sensor σ) (reg : Nat) (m : Machine σ) :
    ∃ (u : Nat) (m' : Machine σ),
      readSPI16bit_u_LE S reg m = some (u, m')
      ∧ readSPI16bit_s_LE S reg m = some (toS16 u, m')
      ∧ u < 65536 ∧ m'.t_fine = m.t_fine := by
  obtain ⟨w, m', _, e, hw, t⟩ := readSPI16bit_u_LE_some S reg m
  refine ⟨_, m', e, ?_, by omega, t⟩
  unfold readSPI16bit_s_LE
  rw [bind_step e]
  rfl

theorem toS16_eq (u : Nat) (hu : u < 65536) :
    toS16 u = if u < 32768 then (u : Int) else (u : Int) - 65536 := by
  unfold toS16
  rw [Nat.mod_eq_of_lt hu]

theorem writeSPI_bus (S : Sensor σ) (reg data : Nat) (m : Machine σ) :
    ∃ (rx1 rx2 : Nat) (m' : Machine σ),
      writeSPI S reg data m = some ((), m')
      ∧ m'.bus = m.bus ++ [BusEvent.cs 0, BusEvent.xfer ((reg &&& 0xFF7F) % 256) rx1,
          BusEvent.xfer (data % 256) rx2, BusEvent.cs 1]
      ∧ m'.CSB = 1 ∧ m'.BF = false ∧ m'.t_fine = m.t_fine :=
  ⟨_, _, _, writeSPI_eq S reg data m, rfl, rfl, rfl, rfl⟩

theorem raw20 (a b c : Nat) (ha : a < 256) (hb : b < 256) (hc : c < 256) :
    (((256 * a + b) <<< 8) % 4294967296 ||| c) >>> 4 = 4096 * a + 16 * b + c / 16 := by
  have h1 : (256 * a + b) <<< 8 = 2 ^ 8 * (256 * a + b) := by
    rw [Nat.shiftLeft_eq, Nat.mul_comm]
  have h2 : (2 ^ 8 * (256 * a + b)) % 4294967296 = 2 ^ 8 * (256 * a + b) :=
    Nat.mod_eq_of_lt (by omega)
  rw [h1, h2, ← Nat.mul_add_lt_is_or (by omega : c < 2 ^ 8), Nat.shiftRight_eq_div_pow]
  omega

theorem nibble_lo (a b : Nat) : (a <<< 4) ||| (b &&& 0xF) = 16 * a + b % 16 := by
  have h1 : a <<< 4 = 2 ^ 4 * a := by rw [Nat.shiftLeft_eq, Nat.mul_comm]
  have h2 : b &&& 0xF = b % 16 := Nat.and_pow_two_sub_one_eq_mod b 4
  rw [h1, h2, ← Nat.mul_add_lt_is_or (by omega : b % 16 < 2 ^ 4)]

theorem nibble_hi (a b : Nat) (hb : b < 256) : (a <<< 4) ||| (b >>> 4) = 16 * a + b / 16 := by
  have h1 : a <<< 4 = 2 ^ 4 * a := by rw [Nat.shiftLeft_eq, Nat.mul_comm]
  have h2 : b >>> 4 = b / 16 := by rw [Nat.shiftRight_eq_div_pow]
  rw [h1, h2, ← Nat.mul_add_lt_is_or (by omega : b / 16 < 2 ^ 4)]

theorem rf_read8 (m : Machine RegFile) (r : Nat → Nat) (hr : m.dev.regs = r) (addr : Nat)
    (h1 : 128 ≤ addr) (h2 : addr < 256) :
    ∃ m1 : Machine RegFile, readSPI8bit regSensor addr m = some (r addr % 256, m1)
      ∧ m1.dev.regs = r ∧ m1.t_fine = m.t_fine := by
  obtain ⟨m1, e, d, t⟩ := regSensor_read m addr h1 h2
  rw [hr] at e
  exact ⟨m1, e, by rw [d]; exact hr, t⟩

theorem rf_read16 (m : Machine RegFile) (r : Nat → Nat) (hr : m.dev.regs = r) (addr : Nat)
    (h1 : 128 ≤ addr) (h2 : addr < 255) :
    ∃ m1 : Machine RegFile,
      readSPI16bit regSensor addr m = some (256 * (r addr % 256) + r (addr + 1) % 256, m1)
      ∧ m1.dev.regs = r ∧ m1.t_fine = m.t_fine := by
  obtain ⟨m1, e, d, t⟩ := regSensor_read16 m addr h1 h2
  rw [hr] at e
  exact ⟨m1, e, by rw [d]; exact hr, t⟩

theorem rf_read16_u_LE (m : Machine RegFile) (r : Nat → Nat) (hr : m.dev.regs = r) (addr : Nat)
    (h1 : 128 ≤ addr) (h2 : addr < 255) :
    ∃ m1 : Machine RegFile,
      readSPI16bit_u_LE regSensor addr m
        = some (256 * (r (addr + 1) % 256) + r addr % 256, m1)
      ∧ m1.dev.regs = r ∧ m1.t_fine = m.t_fine := by
  obtain ⟨m1, e, d, t⟩ := regSensor_read16_u_LE m addr h1 h2
  rw [hr] at e
  exact ⟨m1, e, by rw [d]; exact hr, t⟩

theorem rf_read16_s_LE (m : Machine RegFile) (r : Nat → Nat) (hr : m.dev.regs = r) (addr : Nat)
    (h1 : 128 ≤ addr) (h2 : addr < 255) :
    ∃ m1 : Machine RegFile,
      readSPI16bit_s_LE regSensor addr m
        = some (toS16 (256 * (r (addr + 1) % 256) + r addr % 256), m1)
      ∧ m1.dev.regs = r ∧ m1.t_fine = m.t_fine := by
  obtain ⟨m1, e, d, t⟩ := rf_read16_u_LE m r hr addr h1 h2
  refine ⟨m1, ?_, d, t⟩
  unfold readSPI16bit_s_LE
  rw [bind_step e]
  rfl

theorem readTemp_rf (m : Machine RegFile) (r : Nat → Nat) (hr : m.dev.regs = r) :
    ∃ m' : Machine RegFile,
      readTemp regSensor m
        = some (readTemp_T (readTemp_t_fine
              ((256 * (r 0x89 % 256) + r 0x88 % 256 : Nat) : Int)
              (toS16 (256 * (r 0x8B % 256) + r 0x8A % 256))
              (toS16 (256 * (r 0x8D % 256) + r 0x8C % 256))
              ((4096 * (r 0xFA % 256) + 16 * (r 0xFB % 256) + r 0xFC % 256 / 16 : Nat) : Int)),
            m')
      ∧ m'.t_fine = readTemp_t_fine
              ((256 * (r 0x89 % 256) + r 0x88 % 256 : Nat) : Int)
              (toS16 (256 * (r 0x8B % 256) + r 0x8A % 256))
              (toS16 (256 * (r 0x8D % 256) + r 0x8C % 256))
              ((4096 * (r 0xFA % 256) + 16 * (r 0xFB % 256) + r 0xFC % 256 / 16 : Nat) : Int)
      ∧ m'.dev.regs = r := by
  obtain ⟨m1, e1, r1, _⟩ := rf_read16_u_LE m r hr 0x88 (by decide) (by decide)
  obtain ⟨m2, e2, r2, _⟩ := rf_read16_s_LE m1 r r1 0x8A (by decide) (by decide)
  obtain ⟨m3, e3, r3, _⟩ := rf_read16_s_LE m2 r r2 0x8C (by decide) (by decide)
  obtain ⟨m4, e4, r4, _⟩ := rf_read16 m3 r r3 0xFA (by decide) (by decide)
  obtain ⟨m5, e5, r5, _⟩ := rf_read8 m4 r r4 (0xFA + 2) (by decide) (by decide)
  have hraw := raw20 (r 0xFA % 256) (r 0xFB % 256) (r 0xFC % 256) (Nat.mod_lt _ (by norm_num))
    (Nat.mod_lt _ (by norm_num)) (Nat.mod_lt _ (by norm_num))
  refine ⟨{ m5 with t_fine := (readTemp_t_fine
              ((256 * (r 0x89 % 256) + r 0x88 % 256 : Nat) : Int)
              (toS16 (256 * (r 0x8B % 256) + r 0x8A % 256))
              (toS16 (256 * (r 0x8D % 256) + r 0x8C % 256))
              ((4096 * (r 0xFA % 256) + 16 * (r 0xFB % 256) + r 0xFC % 256 / 16 : Nat) : Int)) },
    ?_, rfl, r5⟩
  unfold readTemp
  rw [bind_step e1]
  dsimp only
  rw [bind_step e2]
  dsimp only
  rw [bind_step e3]
  dsimp only
  rw [bind_step e4]
  dsimp only
  rw [bind_step e5]
  dsimp only
  rw [hraw]
  rfl

theorem readHumidity_rf (m : Machine RegFile) (r : Nat → Nat) (hr : m.dev.regs = r) :
    ∃ m' : Machine RegFile,
      readHumidity regSensor m
        = some (readHumidity_n
              ((r 0xA1 % 256 : Nat) : Int)
              (toS16 (256 * (r 0xE2 % 256) + r 0xE1 % 256))
              ((r 0xE3 % 256 : Nat) : Int)
              ((16 * (r 0xE4 % 256) + r 0xE5 % 256 % 16 : Nat) : Int)
              ((16 * (r 0xE6 % 256) + r 0xE5 % 256 / 16 : Nat) : Int)
              ((r 0xE7 % 256 : Nat) : Int)
              ((256 * (r 0xFD % 256) + r 0xFE % 256 : Nat) : Int)
              m.t_fine, m')
      ∧ m'.t_fine = m.t_fine ∧ m'.dev.regs = r := by
  obtain ⟨m1, e1, r1, t1⟩ := rf_read8 m r hr 0xA1 (by decide) (by decide)
  obtain ⟨m2, e2, r2, t2⟩ := rf_read16_s_LE m1 r r1 0xE1 (by decide) (by decide)
  obtain ⟨m3, e3, r3, t3⟩ := rf_read8 m2 r r2 0xE3 (by decide) (by decide)
  obtain ⟨m4, e4, r4, t4⟩ := rf_read8 m3 r r3 0xE4 (by decide) (by decide)
  obtain ⟨m5, e5, r5, t5⟩ := rf_read8 m4 r r4 (0xE4 + 1) (by decide) (by decide)
  obtain ⟨m6, e6, r6, t6⟩ := rf_read8 m5 r r5 (0xE5 + 1) (by decide) (by decide)
  obtain ⟨m7, e7, r7, t7⟩ := rf_read8 m6 r r6 0xE5 (by decide) (by decide)
  obtain ⟨m8, e8, r8, t8⟩ := rf_read8 m7 r r7 0xE7 (by decide) (by decide)
  obtain ⟨m9, e9, r9, t9⟩ := rf_read16 m8 r r8 0xFD (by decide) (by decide)
  have ht : m9.t_fine = m.t_fine := by rw [t9, t8, t7, t6, t5, t4, t3, t2, t1]
  have h4 := nibble_lo (r 0xE4 % 256) (r 0xE5 % 256)
  have h5 := nibble_hi (r 0xE6 % 256) (r 0xE5 % 256) (Nat.mod_lt _ (by norm_num))
  refine ⟨m9, ?_, ht, r9⟩
  unfold readHumidity
  rw [bind_step e1]
  dsimp only
  rw [bind_step e2]
  dsimp only
  rw [bind_step e3]
  dsimp only
  rw [bind_step e4]
  dsimp only
  rw [bind_step e5]
  dsimp only
  rw [bind_step e6]
  dsimp only
  rw [bind_step e7]
  dsimp only
  rw [bind_step e8]
  dsimp only
  rw [bind_step e9]
  dsimp only
  rw [h4, h5, ht]
  rfl

theorem readPressure_rf (m : Machine RegFile) (r : Nat → Nat) (hr : m.dev.regs = r) :
    ∃ (v : Int) (m' : Machine RegFile),
      readPressure_value
              ((256 * (r 0x8F % 256) + r 0x8E % 256 : Nat) : Int)
              (toS16 (256 * (r 0x91 % 256) + r 0x90 % 256))
              (toS16 (256 * (r 0x93 % 256) + r 0x92 % 256))
              (toS16 (256 * (r 0x95 % 256) + r 0x94 % 256))
              (toS16 (256 * (r 0x97 % 256) + r 0x96 % 256))
              (toS16 (256 * (r 0x99 % 256) + r 0x98 % 256))
              (toS16 (256 * (r 0x9B % 256) + r 0x9A % 256))
              (toS16 (256 * (r 0x9D % 256) + r 0x9C % 256))
              (toS16 (256 * (r 0x9F % 256) + r 0x9E % 256))
              ((4096 * (r 0xF7 % 256) + 16 * (r 0xF8 % 256) + r 0xF9 % 256 / 16 : Nat) : Int)
              m.t_fine = some v
      ∧ readPressure regSensor m = some (v, m')
      ∧ m'.t_fine = m.t_fine ∧ m'.dev.regs = r := by
  obtain ⟨m1, e1, r1, t1⟩ := rf_read16_u_LE m r hr 0x8E (by decide) (by decide)
  obtain ⟨m2, e2, r2, t2⟩ := rf_read16_s_LE m1 r r1 0x90 (by decide) (by decide)
  obtain ⟨m3, e3, r3, t3⟩ := rf_read16_s_LE m2 r r2 0x92 (by decide) (by decide)
  obtain ⟨m4, e4, r4, t4⟩ := rf_read16_s_LE m3 r r3 0x94 (by decide) (by decide)
  obtain ⟨m5, e5, r5, t5⟩ := rf_read16_s_LE m4 r r4 0x96 (by decide) (by decide)
  obtain ⟨m6, e6, r6, t6⟩ := rf_read16_s_LE m5 r r5 0x98 (by decide) (by decide)
  obtain ⟨m7, e7, r7, t7⟩ := rf_read16_s_LE m6 r r6 0x9A (by decide) (by decide)
  obtain ⟨m8, e8, r8, t8⟩ := rf_read16_s_LE m7 r r7 0x9C (by decide) (by decide)
  obtain ⟨m9, e9, r9, t9⟩ := rf_read16_s_LE m8 r r8 0x9E (by decide) (by decide)
  obtain ⟨n1, k1, q1, s1⟩ := rf_read16 m9 r r9 0xF7 (by decide) (by decide)
  obtain ⟨n2, k2, q2, s2⟩ := rf_read8 n1 r q1 (0xF7 + 2) (by decide) (by decide)
  have ht : n2.t_fine = m.t_fine := by rw [s2, s1, t9, t8, t7, t6, t5, t4, t3, t2, t1]
  have hraw := raw20 (r 0xF7 % 256) (r 0xF8 % 256) (r 0xF9 % 256) (Nat.mod_lt _ (by norm_num))
    (Nat.mod_lt _ (by norm_num)) (Nat.mod_lt _ (by norm_num))
  have hv := readPressure_value_eq
              ((256 * (r 0x8F % 256) + r 0x8E % 256 : Nat) : Int)
              (toS16 (256 * (r 0x91 % 256) + r 0x90 % 256))
              (toS16 (256 * (r 0x93 % 256) + r 0x92 % 256))
              (toS16 (256 * (r 0x95 % 256) + r 0x94 % 256))
              (toS16 (256 * (r 0x97 % 256) + r 0x96 % 256))
              (toS16 (256 * (r 0x99 % 256) + r 0x98 % 256))
              (toS16 (256 * (r 0x9B % 256) + r 0x9A % 256))
              (toS16 (256 * (r 0x9D % 256) + r 0x9C % 256))
              (toS16 (256 * (r 0x9F % 256) + r 0x9E % 256))
              ((4096 * (r 0xF7 % 256) + 16 * (r 0xF8 % 256) + r 0xF9 % 256 / 16 : Nat) : Int)
              m.t_fine
  refine ⟨_, n2, hv, ?_, ht, q2⟩
  unfold readPressure
  rw [bind_step e1]
  dsimp only
  rw [bind_step e2]
  dsimp only
  rw [bind_step e3]
  dsimp only
  rw [bind_step e4]
  dsimp only
  rw [bind_step e5]
  dsimp only
  rw [bind_step e6]
  dsimp only
  rw [bind_step e7]
  dsimp only
  rw [bind_step e8]
  dsimp only
  rw [bind_step e9]
  dsimp only
  rw [bind_step k1]
  dsimp only
  rw [bind_step k2]
  dsimp only
  rw [hraw, ht, hv]
  rfl

theorem ite_lt_256 (c : Prop) [Decidable c] (x y : Nat) (hx : x < 256) (hy : y < 256) :
    (if c then x else y) < 256 := by
  split_ifs <;> assumption

theorem dryColdRegs_bytes (a : Nat) : (boot dryColdRegs).dev.regs a < 256 := by
  show dryColdRegs a < 256
  unfold dryColdRegs
  repeat' apply ite_lt_256
  all_goals decide

theorem BME280_compensate_P_int32_range (dig_P1 dig_P2 dig_P3 dig_P4 dig_P5 dig_P6 dig_P7
    dig_P8 dig_P9 adc_P t_fine : Int) :
    0 ≤ BME280_compensate_P_int32 dig_P1 dig_P2 dig_P3 dig_P4 dig_P5 dig_P6 dig_P7 dig_P8 dig_P9
      adc_P t_fine
    ∧ BME280_compensate_P_int32 dig_P1 dig_P2 dig_P3 dig_P4 dig_P5 dig_P6 dig_P7 dig_P8 dig_P9
      adc_P t_fine < 4294967296 := by
  unfold BME280_compensate_P_int32
  dsimp only
  constructor
  · split
    · decide
    · exact u32_nonneg _
  · split
    · decide
    · exact u32_lt _

theorem readTemp_rf_bytes (m : Machine RegFile) (hb : ∀ a, m.dev.regs a < 256) :
    ∃ m' : Machine RegFile,
      readTemp regSensor m
        = some (readTemp_T (readTemp_t_fine
            ((256 * m.dev.regs 0x89 + m.dev.regs 0x88 : Nat) : Int)
            (toS16 (256 * m.dev.regs 0x8B + m.dev.regs 0x8A))
            (toS16 (256 * m.dev.regs 0x8D + m.dev.regs 0x8C))
            ((4096 * m.dev.regs 0xFA + 16 * m.dev.regs 0xFB + m.dev.regs 0xFC / 16 : Nat) : Int)), m')
      ∧ m'.t_fine = readTemp_t_fine
            ((256 * m.dev.regs 0x89 + m.dev.regs 0x88 : Nat) : Int)
            (toS16 (256 * m.dev.regs 0x8B + m.dev.regs 0x8A))
            (toS16 (256 * m.dev.regs 0x8D + m.dev.regs 0x8C))
            ((4096 * m.dev.regs 0xFA + 16 * m.dev.regs 0xFB + m.dev.regs 0xFC / 16 : Nat) : Int) := by
  obtain ⟨m', e, t, _⟩ := readTemp_rf m m.dev.regs rfl
  simp only [Nat.mod_eq_of_lt (hb _)] at e t
  exact ⟨m', e, t⟩

theorem readHumidity_rf_bytes (m : Machine RegFile) (hb : ∀ a, m.dev.regs a < 256) :
    ∃ m' : Machine RegFile,
      readHumidity regSensor m
        = some (readHumidity_n
            ((m.dev.regs 0xA1 : Nat) : Int)
            (toS16 (256 * m.dev.regs 0xE2 + m.dev.regs 0xE1))
            ((m.dev.regs 0xE3 : Nat) : Int)
            ((16 * m.dev.regs 0xE4 + m.dev.regs 0xE5 % 16 : Nat) : Int)
            ((16 * m.dev.regs 0xE6 + m.dev.regs 0xE5 / 16 : Nat) : Int)
            ((m.dev.regs 0xE7 : Nat) : Int)
            ((256 * m.dev.regs 0xFD + m.dev.regs 0xFE : Nat) : Int)
            m.t_fine, m')
      ∧ m'.t_fine = m.t_fine := by
  obtain ⟨m', e, t, _⟩ := readHumidity_rf m m.dev.regs rfl
  simp only [Nat.mod_eq_of_lt (hb _)] at e
  exact ⟨m', e, t⟩

theorem readPressure_rf_bytes (m : Machine RegFile) (hb : ∀ a, m.dev.regs a < 256) :
    ∃ (v : Int) (m' : Machine RegFile),
      readPressure_value
            ((256 * m.dev.regs 0x8F + m.dev.regs 0x8E : Nat) : Int)
            (toS16 (256 * m.dev.regs 0x91 + m.dev.regs 0x90))
            (toS16 (256 * m.dev.regs 0x93 + m.dev.regs 0x92))
            (toS16 (256 * m.dev.regs 0x95 + m.dev.regs 0x94))
            (toS16 (256 * m.dev.regs 0x97 + m.dev.regs 0x96))
            (toS16 (256 * m.dev.regs 0x99 + m.dev.regs 0x98))
            (toS16 (256 * m.dev.regs 0x9B + m.dev.regs 0x9A))
            (toS16 (256 * m.dev.regs 0x9D + m.dev.regs 0x9C))
            (toS16 (256 * m.dev.regs 0x9F + m.dev.regs 0x9E))
            ((4096 * m.dev.regs 0xF7 + 16 * m.dev.regs 0xF8 + m.dev.regs 0xF9 / 16 : Nat) : Int)
            m.t_fine = some v
      ∧ readPressure regSensor m = some (v, m')
      ∧ m'.t_fine = m.t_fine := by
  obtain ⟨v, m', hv, e, t, _⟩ := readPressure_rf m m.dev.regs rfl
  simp only [Nat.mod_eq_of_lt (hb _)] at hv
  exact ⟨v, m', hv, e, t⟩

theorem readPressure_p_getD (dig_P1 dig_P2 dig_P3 dig_P4 dig_P5 dig_P6 dig_P7 dig_P8 dig_P9
    adc_P t_fine : Int) :
    (readPressure_p dig_P1 dig_P2 dig_P3 dig_P4 dig_P5 dig_P6 dig_P7 dig_P8 dig_P9 adc_P
        t_fine).map (fun r => r.getD 0)
      = some (BME280_compensate_P_int32 dig_P1 dig_P2 dig_P3 dig_P4 dig_P5 dig_P6 dig_P7
          dig_P8 dig_P9 adc_P t_fine) := by
  rw [readPressure_p_eq]
  by_cases h : readPressure_var1 dig_P1 dig_P2 dig_P3 (readPressure_var1a t_fine) = 0
  · rw [if_pos h, BME280_compensate_P_int32_guard _ _ _ _ _ _ _ _ _ _ _ h]
    rfl
  · rw [if_neg h]
    rfl

/-! ## The driver functions in terms of the values their reads return -/

theorem readTemp_of_reads (S : Sensor σ) (m : Machine σ) (dig_T1 raw xlsb : Nat)
    (dig_T2 dig_T3 : Int) (m1 m2 m3 m4 m5 : Machine σ)
    (h1 : readSPI16bit_u_LE S 0x88 m = some (dig_T1, m1))
    (h2 : readSPI16bit_s_LE S 0x8A m1 = some (dig_T2, m2))
    (h3 : readSPI16bit_s_LE S 0x8C m2 = some (dig_T3, m3))
    (h4 : readSPI16bit S 0xFA m3 = some (raw, m4))
    (h5 : readSPI8bit S 0xFC m4 = some (xlsb, m5)) :
    readTemp S m
      = some (readTemp_T
          (readTemp_t_fine ((dig_T1 : Nat) : Int) dig_T2 dig_T3
          ((((raw <<< 8) % 4294967296 ||| xlsb) >>> 4 : Nat) : Int)),
          { m5 with t_fine :=
              (readTemp_t_fine ((dig_T1 : Nat) : Int) dig_T2 dig_T3
              ((((raw <<< 8) % 4294967296 ||| xlsb) >>> 4 : Nat) : Int)) }) := by
  unfold readTemp
  rw [bind_step h1]
  dsimp only
  rw [bind_step h2]
  dsimp only
  rw [bind_step h3]
  dsimp only
  rw [bind_step h4]
  dsimp only
  have k5 : readSPI8bit S (0xFA + 2) m4 = some (xlsb, m5) := h5
  rw [bind_step k5]
  dsimp only
  rfl

theorem readHumidity_of_reads (S : Sensor σ) (m : Machine σ)
    (dig_H1 dig_H3 h4_hi h4_lo h5_hi h5_lo dig_H6 adc_H : Nat) (dig_H2 : Int)
    (m1 m2 m3 m4 m5 m6 m7 m8 m9 : Machine σ)
    (h1 : readSPI8bit S 0xA1 m = some (dig_H1, m1))
    (h2 : readSPI16bit_s_LE S 0xE1 m1 = some (dig_H2, m2))
    (h3 : readSPI8bit S 0xE3 m2 = some (dig_H3, m3))
    (h4 : readSPI8bit S 0xE4 m3 = some (h4_hi, m4))
    (h5 : readSPI8bit S 0xE5 m4 = some (h4_lo, m5))
    (h6 : readSPI8bit S 0xE6 m5 = some (h5_hi, m6))
    (h7 : readSPI8bit S 0xE5 m6 = some (h5_lo, m7))
    (h8 : readSPI8bit S 0xE7 m7 = some (dig_H6, m8))
    (h9 : readSPI16bit S 0xFD m8 = some (adc_H, m9)) :
    readHumidity S m
      = some (readHumidity_n ((dig_H1 : Nat) : Int) dig_H2 ((dig_H3 : Nat) : Int)
          (((h4_hi <<< 4) ||| (h4_lo &&& 0xF) : Nat) : Int)
          (((h5_hi <<< 4) ||| (h5_lo >>> 4) : Nat) : Int) ((dig_H6 : Nat) : Int)
          ((adc_H : Nat) : Int) m9.t_fine, m9) := by
  unfold readHumidity
  rw [bind_step h1]
  dsimp only
  rw [bind_step h2]
  dsimp only
  rw [bind_step h3]
  dsimp only
  rw [bind_step h4]
  dsimp only
  have k5 : readSPI8bit S (0xE4 + 1) m4 = some (h4_lo, m5) := h5
  rw [bind_step k5]
  dsimp only
  have k6 : readSPI8bit S (0xE5 + 1) m5 = some (h5_hi, m6) := h6
  rw [bind_step k6]
  dsimp only
  rw [bind_step h7]
  dsimp only
  rw [bind_step h8]
  dsimp only
  rw [bind_step h9]
  dsimp only
  rfl

theorem readPressure_of_reads (S : Sensor σ) (m : Machine σ) (dig_P1 raw xlsb : Nat)
    (dig_P2 dig_P3 dig_P4 dig_P5 dig_P6 dig_P7 dig_P8 dig_P9 : Int)
    (m1 m2 m3 m4 m5 m6 m7 m8 m9 m10 m11 : Machine σ)
    (h1 : readSPI16bit_u_LE S 0x8E m = some (dig_P1, m1))
    (h2 : readSPI16bit_s_LE S 0x90 m1 = some (dig_P2, m2))
    (h3 : readSPI16bit_s_LE S 0x92 m2 = some (dig_P3, m3))
    (h4 : readSPI16bit_s_LE S 0x94 m3 = some (dig_P4, m4))
    (h5 : readSPI16bit_s_LE S 0x96 m4 = some (dig_P5, m5))
    (h6 : readSPI16bit_s_LE S 0x98 m5 = some (dig_P6, m6))
    (h7 : readSPI16bit_s_LE S 0x9A m6 = some (dig_P7, m7))
    (h8 : readSPI16bit_s_LE S 0x9C m7 = some (dig_P8, m8))
    (h9 : readSPI16bit_s_LE S 0x9E m8 = some (dig_P9, m9))
    (h10 : readSPI16bit S 0xF7 m9 = some (raw, m10))
    (h11 : readSPI8bit S 0xF9 m10 = some (xlsb, m11)) :
    readPressure S m
      = (readPressure_value ((dig_P1 : Nat) : Int) dig_P2 dig_P3 dig_P4 dig_P5 dig_P6 dig_P7 dig_P8
          dig_P9 ((((raw <<< 8) % 4294967296 ||| xlsb) >>> 4 : Nat) : Int) m11.t_fine).map
          (fun v => (v, m11)) := by
  unfold readPressure
  rw [bind_step h1]
  dsimp only
  rw [bind_step h2]
  dsimp only
  rw [bind_step h3]
  dsimp only
  rw [bind_step h4]
  dsimp only
  rw [bind_step h5]
  dsimp only
  rw [bind_step h6]
  dsimp only
  rw [bind_step h7]
  dsimp only
  rw [bind_step h8]
  dsimp only
  rw [bind_step h9]
  dsimp only
  rw [bind_step h10]
  dsimp only
  have k11 : readSPI8bit S (0xF7 + 2) m10 = some (xlsb, m11) := h11
  rw [bind_step k11]
  dsimp only
  cases readPressure_value ((dig_P1 : Nat) : Int) dig_P2 dig_P3 dig_P4 dig_P5 dig_P6 dig_P7 dig_P8
      dig_P9 ((((raw <<< 8) % 4294967296 ||| xlsb) >>> 4 : Nat) : Int) m11.t_fine <;> rfl

/-! ## The claims -/

/-- C1 (the code departs from the claim): on the registers of the datasheet
example (`dig_T1 = 27504`, `dig_T2 = 26435`, `dig_T3 = -1000`, raw sample
`519888`) `readTemp` stores `t_fine = 390566` and converts the integer 7628
(76.28 degrees), whereas the vendor reference gives `t_fine = 128422` and 2508
(25.08 degrees): the product with the negative `dig_T3` is shifted right as an
`unsigned long`. -/
theorem readTemp_datasheet_example :
    (readTemp regSensor (boot datasheetRegs)).map (fun r => (r.1, r.2.t_fine))
      = some (7628, 390566)
    ∧ readTemp_var1 27504 26435 519888 = 128793
    ∧ readTemp_var2 27504 (-1000) 519888 = 261773
    ∧ readTemp_t_fine 27504 26435 (-1000) 519888 = 390566
    ∧ readTemp_T 390566 = 7628
    ∧ BME280_compensate_T_int32_t_fine 27504 26435 (-1000) 519888 = 128422
    ∧ BME280_compensate_T_int32 27504 26435 (-1000) 519888 = 2508 := by
  decide

/-- C2 (the code departs from the claim): for a sample below the freezing point
(`dig_T1 = 28485`, `dig_T2 = 26735`, `dig_T3 = 50`, `adc_T = 400000`) the
difference `(adc_T>>3) - (dig_T1<<1)` wraps around in `unsigned long`;
`readTemp` computes `t_fine = 2006173` and 39183 (391.83 degrees) where the
vendor reference computes `t_fine = -90979` and -1777 (-17.77 degrees). -/
theorem readTemp_differs_from_reference_below_zero :
    readTemp_t_fine 28485 26735 50 400000 = 2006173
    ∧ readTemp_T (readTemp_t_fine 28485 26735 50 400000) = 39183
    ∧ BME280_compensate_T_int32_t_fine 28485 26735 50 400000 = -90979
    ∧ BME280_compensate_T_int32 28485 26735 50 400000 = -1777 := by
  decide

/-- C3: for all coefficients, raw sample and `t_fine`, the `p` that
`readPressure` has before the division by 1000 is the output of the vendor
reference `BME280_compensate_P_int32`; when the factor `var1` is 0 there is no
`p` and the 0 that `readPressure` returns is the output of the reference too;
the integer returned is the reference output divided by 1000. -/
theorem readPressure_p_eq_reference (dig_P1 dig_P2 dig_P3 dig_P4 dig_P5 dig_P6 dig_P7 dig_P8
    dig_P9 adc_P t_fine : Int) :
    readPressure_p dig_P1 dig_P2 dig_P3 dig_P4 dig_P5 dig_P6 dig_P7 dig_P8 dig_P9 adc_P t_fine
      = some (if readPressure_var1 dig_P1 dig_P2 dig_P3 (readPressure_var1a t_fine) = 0 then none
          else some (BME280_compensate_P_int32 dig_P1 dig_P2 dig_P3 dig_P4 dig_P5 dig_P6 dig_P7
            dig_P8 dig_P9 adc_P t_fine))
    ∧ (readPressure_p dig_P1 dig_P2 dig_P3 dig_P4 dig_P5 dig_P6 dig_P7 dig_P8 dig_P9 adc_P
        t_fine).map (fun r => r.getD 0)
        = some (BME280_compensate_P_int32 dig_P1 dig_P2 dig_P3 dig_P4 dig_P5 dig_P6 dig_P7
            dig_P8 dig_P9 adc_P t_fine)
    ∧ readPressure_value dig_P1 dig_P2 dig_P3 dig_P4 dig_P5 dig_P6 dig_P7 dig_P8 dig_P9
        adc_P t_fine
        = some (BME280_compensate_P_int32 dig_P1 dig_P2 dig_P3 dig_P4 dig_P5 dig_P6 dig_P7
            dig_P8 dig_P9 adc_P t_fine / 1000) := by
  refine ⟨readPressure_p_eq _ _ _ _ _ _ _ _ _ _ _, ?_, readPressure_value_eq _ _ _ _ _ _ _ _ _ _ _⟩
  rw [readPressure_p_eq]
  by_cases h : readPressure_var1 dig_P1 dig_P2 dig_P3 (readPressure_var1a t_fine) = 0
  · rw [if_pos h, BME280_compensate_P_int32_guard _ _ _ _ _ _ _ _ _ _ _ h]
    rfl
  · rw [if_neg h]
    rfl

/-- C4 (the code departs from the claim): with `dig_H1 = 75`, `dig_H2 = 360`,
`dig_H3 = 0`, `dig_H4 = 320`, `dig_H5 = 50`, `dig_H6 = 30`, `adc_H = 30000` and
`t_fine = 51200` (10 degrees) `readHumidity` converts 102400 (100 %RH) where the
vendor reference gives 52973 (51.7 %RH): `t_fine - 76800` is negative and is
shifted as an `unsigned long`. -/
theorem readHumidity_differs_from_reference :
    readHumidity_v0 51200 = 4294941696
    ∧ readHumidity_n 75 360 0 320 50 30 30000 51200 = 102400
    ∧ bme280_compensate_H_int32 75 360 0 320 50 30 30000 51200 = 52973 := by
  decide

/-- C5: whatever the sensor answers and whatever `t_fine` holds, `readHumidity`
returns, and the integer `n = v_x1_u32r >> 12` it converts satisfies
`0 <= n <= 409600` (indeed `n <= 102400`), the shifted value being a clamped
value of at most 419430400. -/
theorem readHumidity_range (S : Sensor σ) (m : Machine σ) :
    ∃ (n : Int) (m' : Machine σ) (pre : Int),
      readHumidity S m = some (n, m')
      ∧ n = shr (readHumidity_clamp pre) 12
      ∧ 0 ≤ readHumidity_clamp pre ∧ readHumidity_clamp pre ≤ 419430400
      ∧ 0 ≤ n ∧ n ≤ 102400 ∧ n ≤ 409600 := by
  obtain ⟨c1, c2, c3, c4, c5, c6, a, m', h⟩ := readHumidity_acc S m
  have hb := readHumidity_n_bounds c1 c2 c3 c4 c5 c6 a m.t_fine
  have hc := readHumidity_clamp_bounds (readHumidity_preclamp c1 c2 c3 c4 c5 c6 a m.t_fine)
  exact ⟨_, _, readHumidity_preclamp c1 c2 c3 c4 c5 c6 a m.t_fine, h m.t_fine, rfl, hc.1, hc.2,
    hb.1, hb.2, le_trans hb.2 (by norm_num)⟩

/-- C6 (the code departs from the claim): on the registers `dryColdRegs` a full
cycle `readTemp`, `readHumidity` gives 10.00 degrees, `t_fine = 51219`, and a
pre-clamp `v_x1_u32r` whose signed reading is negative, yet `readHumidity`
converts 102400 (100 %RH), not 0: the comparison `v_x1_u32r < 0` of line 154 is
made on an `unsigned long` and never holds, and the value is caught by the
upper clamp.  The vendor reference gives 0. -/
theorem readHumidity_negative_preclamp_saturates_high :
    ((readTemp regSensor (boot dryColdRegs)).bind fun r =>
        (readHumidity regSensor r.2).map fun q => (r.1, r.2.t_fine, q.1))
      = some (1000, 51219, 102400)
    ∧ readHumidity_preclamp 75 360 0 320 50 30 5000 51219 = 4002059478
    ∧ s32 (readHumidity_preclamp 75 360 0 320 50 30 5000 51219) = -292907818
    ∧ s32 (readHumidity_preclamp 75 360 0 320 50 30 5000 51219) < 0
    ∧ readHumidity_n 75 360 0 320 50 30 5000 51219 = 102400
    ∧ bme280_compensate_H_int32 75 360 0 320 50 30 5000 51219 = 0 := by
  decide

/-- C7: when the factor `var1` of line 185 is 0, in particular when
`dig_P1 = 0`, `readPressure` returns 0; when it is not 0 the divisor
`(unsigned long)var1` is not 0 and the division of lines 190-196 is carried
out; so the pressure computation never divides by zero. -/
theorem readPressure_zero_guard (dig_P1 dig_P2 dig_P3 dig_P4 dig_P5 dig_P6 dig_P7 dig_P8 dig_P9
    adc_P t_fine : Int) :
    (readPressure_var1 dig_P1 dig_P2 dig_P3 (readPressure_var1a t_fine) = 0 →
      readPressure_value dig_P1 dig_P2 dig_P3 dig_P4 dig_P5 dig_P6 dig_P7 dig_P8 dig_P9
        adc_P t_fine = some 0)
    ∧ (dig_P1 = 0 → readPressure_var1 dig_P1 dig_P2 dig_P3 (readPressure_var1a t_fine) = 0)
    ∧ (readPressure_var1 dig_P1 dig_P2 dig_P3 (readPressure_var1a t_fine) ≠ 0 →
        u32 (readPressure_var1 dig_P1 dig_P2 dig_P3 (readPressure_var1a t_fine)) ≠ 0
        ∧ ∃ p, readPressure_div adc_P
            (readPressure_var1 dig_P1 dig_P2 dig_P3 (readPressure_var1a t_fine))
            (readPressure_var2 dig_P4 dig_P5 dig_P6 (readPressure_var1a t_fine)) = some p)
    ∧ ∃ v, readPressure_value dig_P1 dig_P2 dig_P3 dig_P4 dig_P5 dig_P6 dig_P7 dig_P8 dig_P9
        adc_P t_fine = some v := by
  have hne : readPressure_var1 dig_P1 dig_P2 dig_P3 (readPressure_var1a t_fine) ≠ 0 →
      u32 (readPressure_var1 dig_P1 dig_P2 dig_P3 (readPressure_var1a t_fine)) ≠ 0 := by
    unfold readPressure_var1
    exact u32_shr15_s32_ne_zero _
  refine ⟨fun h => ?_, fun h => ?_, fun h => ⟨hne h, ?_⟩, _, readPressure_value_eq _ _ _ _ _ _ _ _ _ _ _⟩
  · rw [readPressure_value_eq, BME280_compensate_P_int32_guard _ _ _ _ _ _ _ _ _ _ _ h]
    rfl
  · subst h
    unfold readPressure_var1
    have z : s32 0 = 0 := by decide
    dsimp only
    rw [z, mul_zero, z]
    decide
  · have h' := hne h
    unfold readPressure_div udiv
    dsimp only
    split_ifs
    · exact ⟨_, rfl⟩
    · exact ⟨_, rfl⟩

/-- Witness of C7: with `dig_P1 = 0` the factor is 0 and `readPressure`
returns 0. -/
theorem readPressure_zero_guard_witness :
    readPressure_var1 0 (-10685) 3024 (readPressure_var1a 128422) = 0
    ∧ readPressure_value 0 (-10685) 3024 2855 140 (-7) 15500 (-14600) 6000 415148 128422
        = some 0 :=
  ⟨by decide,
    (readPressure_zero_guard 0 (-10685) 3024 2855 140 (-7) 15500 (-14600) 6000 415148 128422).1
      (by decide)⟩

/-- C8: for every sensor and state, the reads made by `readTemp` return
values that do not depend on the stored `t_fine`, and `readTemp` stores in
`t_fine` the value `var1 + var2` of exactly these values, whatever `t_fine` was
before; `readHumidity` and `readPressure` return the compensation formula of
the values they read, evaluated at the stored `t_fine`, and leave `t_fine` as
it was. On the register-file sensor the values are those of the registers
`0x88 .. 0x8D`, `0xFA .. 0xFC` (temperature), `0xA1`, `0xE1 .. 0xE7`, `0xFD`,
`0xFE` (humidity), `0x8E .. 0x9F`, `0xF7 .. 0xF9` (pressure), and in the
sequence `readTemp`, `readHumidity`, `readPressure` both formulas are evaluated
at the `t_fine` that `readTemp` stored. `BME280_init` and the register
accessors return and leave `t_fine` as it was. -/
theorem t_fine_frame (S : Sensor σ) (m : Machine σ) :
    (∃ (dig_T1 raw xlsb : Nat) (dig_T2 dig_T3 : Int) (m1 m2 m3 m4 m5 : Machine σ),
      (∀ t, readSPI16bit_u_LE S 0x88 { m with t_fine := t }
          = some (dig_T1, { m1 with t_fine := t }))
      ∧ (∀ t, readSPI16bit_s_LE S 0x8A { m1 with t_fine := t }
          = some (dig_T2, { m2 with t_fine := t }))
      ∧ (∀ t, readSPI16bit_s_LE S 0x8C { m2 with t_fine := t }
          = some (dig_T3, { m3 with t_fine := t }))
      ∧ (∀ t, readSPI16bit S 0xFA { m3 with t_fine := t } = some (raw, { m4 with t_fine := t }))
      ∧ (∀ t, readSPI8bit S 0xFC { m4 with t_fine := t } = some (xlsb, { m5 with t_fine := t }))
      ∧ ∀ t, readTemp S { m with t_fine := t }
        = some (readTemp_T
            (readTemp_t_fine ((dig_T1 : Nat) : Int) dig_T2 dig_T3
            ((((raw <<< 8) % 4294967296 ||| xlsb) >>> 4 : Nat) : Int)),
            { m5 with t_fine :=
                (readTemp_t_fine ((dig_T1 : Nat) : Int) dig_T2 dig_T3
                ((((raw <<< 8) % 4294967296 ||| xlsb) >>> 4 : Nat) : Int)) }))
    ∧ (∃ (dig_H1 dig_H3 h4_hi h4_lo h5_hi h5_lo dig_H6 adc_H : Nat) (dig_H2 : Int)
        (m1 m2 m3 m4 m5 m6 m7 m8 m9 : Machine σ),
      (∀ t, readSPI8bit S 0xA1 { m with t_fine := t } = some (dig_H1, { m1 with t_fine := t }))
      ∧ (∀ t, readSPI16bit_s_LE S 0xE1 { m1 with t_fine := t }
          = some (dig_H2, { m2 with t_fine := t }))
      ∧ (∀ t, readSPI8bit S 0xE3 { m2 with t_fine := t } = some (dig_H3, { m3 with t_fine := t }))
      ∧ (∀ t, readSPI8bit S 0xE4 { m3 with t_fine := t } = some (h4_hi, { m4 with t_fine := t }))
      ∧ (∀ t, readSPI8bit S 0xE5 { m4 with t_fine := t } = some (h4_lo, { m5 with t_fine := t }))
      ∧ (∀ t, readSPI8bit S 0xE6 { m5 with t_fine := t } = some (h5_hi, { m6 with t_fine := t }))
      ∧ (∀ t, readSPI8bit S 0xE5 { m6 with t_fine := t } = some (h5_lo, { m7 with t_fine := t }))
      ∧ (∀ t, readSPI8bit S 0xE7 { m7 with t_fine := t } = some (dig_H6, { m8 with t_fine := t }))
      ∧ (∀ t, readSPI16bit S 0xFD { m8 with t_fine := t } = some (adc_H, { m9 with t_fine := t }))
      ∧ ∀ t, readHumidity S { m with t_fine := t }
        = some (readHumidity_n ((dig_H1 : Nat) : Int) dig_H2 ((dig_H3 : Nat) : Int)
            (((h4_hi <<< 4) ||| (h4_lo &&& 0xF) : Nat) : Int)
            (((h5_hi <<< 4) ||| (h5_lo >>> 4) : Nat) : Int) ((dig_H6 : Nat) : Int)
            ((adc_H : Nat) : Int) t, { m9 with t_fine := t }))
    ∧ (∃ (dig_P1 raw xlsb : Nat) (dig_P2 dig_P3 dig_P4 dig_P5 dig_P6 dig_P7 dig_P8 dig_P9 : Int)
        (m1 m2 m3 m4 m5 m6 m7 m8 m9 m10 m11 : Machine σ),
      (∀ t, readSPI16bit_u_LE S 0x8E { m with t_fine := t }
          = some (dig_P1, { m1 with t_fine := t }))
      ∧ (∀ t, readSPI16bit_s_LE S 0x90 { m1 with t_fine := t }
          = some (dig_P2, { m2 with t_fine := t }))
      ∧ (∀ t, readSPI16bit_s_LE S 0x92 { m2 with t_fine := t }
          = some (dig_P3, { m3 with t_fine := t }))
      ∧ (∀ t, readSPI16bit_s_LE S 0x94 { m3 with t_fine := t }
          = some (dig_P4, { m4 with t_fine := t }))
      ∧ (∀ t, readSPI16bit_s_LE S 0x96 { m4 with t_fine := t }
          = some (dig_P5, { m5 with t_fine := t }))
      ∧ (∀ t, readSPI16bit_s_LE S 0x98 { m5 with t_fine := t }
          = some (dig_P6, { m6 with t_fine := t }))
      ∧ (∀ t, readSPI16bit_s_LE S 0x9A { m6 with t_fine := t }
          = some (dig_P7, { m7 with t_fine := t }))
      ∧ (∀ t, readSPI16bit_s_LE S 0x9C { m7 with t_fine := t }
          = some (dig_P8, { m8 with t_fine := t }))
      ∧ (∀ t, readSPI16bit_s_LE S 0x9E { m8 with t_fine := t }
          = some (dig_P9, { m9 with t_fine := t }))
      ∧ (∀ t, readSPI16bit S 0xF7 { m9 with t_fine := t } = some (raw, { m10 with t_fine := t }))
      ∧ (∀ t, readSPI8bit S 0xF9 { m10 with t_fine := t } = some (xlsb, { m11 with t_fine := t }))
      ∧ ∀ t, ∃ v, readPressure_value ((dig_P1 : Nat) : Int) dig_P2 dig_P3 dig_P4 dig_P5 dig_P6
          dig_P7 dig_P8 dig_P9 ((((raw <<< 8) % 4294967296 ||| xlsb) >>> 4 : Nat) : Int) t = some v
        ∧ readPressure S { m with t_fine := t } = some (v, { m11 with t_fine := t }))
    ∧ (∀ (n : Machine RegFile) (t : Int), ∃ n' : Machine RegFile,
      readTemp regSensor { n with t_fine := t }
        = some (readTemp_T
            (readTemp_t_fine ((256 * (n.dev.regs 0x89 % 256) + n.dev.regs 0x88 % 256 : Nat) : Int)
            (toS16 (256 * (n.dev.regs 0x8B % 256) + n.dev.regs 0x8A % 256))
            (toS16 (256 * (n.dev.regs 0x8D % 256) + n.dev.regs 0x8C % 256))
            ((4096 * (n.dev.regs 0xFA % 256) + 16 * (n.dev.regs 0xFB % 256)
            + n.dev.regs 0xFC % 256 / 16 : Nat) : Int)), n')
      ∧ n'.t_fine
          = readTemp_t_fine ((256 * (n.dev.regs 0x89 % 256) + n.dev.regs 0x88 % 256 : Nat) : Int)
          (toS16 (256 * (n.dev.regs 0x8B % 256) + n.dev.regs 0x8A % 256))
          (toS16 (256 * (n.dev.regs 0x8D % 256) + n.dev.regs 0x8C % 256))
          ((4096 * (n.dev.regs 0xFA % 256) + 16 * (n.dev.regs 0xFB % 256)
          + n.dev.regs 0xFC % 256 / 16 : Nat) : Int))
    ∧ (∀ (n : Machine RegFile) (t : Int), ∃ n' : Machine RegFile,
      readHumidity regSensor { n with t_fine := t }
        = some (readHumidity_n ((n.dev.regs 0xA1 % 256 : Nat) : Int)
            (toS16 (256 * (n.dev.regs 0xE2 % 256) + n.dev.regs 0xE1 % 256))
            ((n.dev.regs 0xE3 % 256 : Nat) : Int)
            ((16 * (n.dev.regs 0xE4 % 256) + n.dev.regs 0xE5 % 256 % 16 : Nat) : Int)
            ((16 * (n.dev.regs 0xE6 % 256) + n.dev.regs 0xE5 % 256 / 16 : Nat) : Int)
            ((n.dev.regs 0xE7 % 256 : Nat) : Int)
            ((256 * (n.dev.regs 0xFD % 256) + n.dev.regs 0xFE % 256 : Nat) : Int) t, n')
      ∧ n'.t_fine = t)
    ∧ (∀ (n : Machine RegFile) (t : Int), ∃ (v : Int) (n' : Machine RegFile),
      readPressure_value ((256 * (n.dev.regs 0x8F % 256) + n.dev.regs 0x8E % 256 : Nat) : Int)
          (toS16 (256 * (n.dev.regs 0x91 % 256) + n.dev.regs 0x90 % 256))
          (toS16 (256 * (n.dev.regs 0x93 % 256) + n.dev.regs 0x92 % 256))
          (toS16 (256 * (n.dev.regs 0x95 % 256) + n.dev.regs 0x94 % 256))
          (toS16 (256 * (n.dev.regs 0x97 % 256) + n.dev.regs 0x96 % 256))
          (toS16 (256 * (n.dev.regs 0x99 % 256) + n.dev.regs 0x98 % 256))
          (toS16 (256 * (n.dev.regs 0x9B % 256) + n.dev.regs 0x9A % 256))
          (toS16 (256 * (n.dev.regs 0x9D % 256) + n.dev.regs 0x9C % 256))
          (toS16 (256 * (n.dev.regs 0x9F % 256) + n.dev.regs 0x9E % 256))
          ((4096 * (n.dev.regs 0xF7 % 256) + 16 * (n.dev.regs 0xF8 % 256)
          + n.dev.regs 0xF9 % 256 / 16 : Nat) : Int) t = some v
      ∧ readPressure regSensor { n with t_fine := t } = some (v, n')
      ∧ n'.t_fine = t)
    ∧ (∀ (n : Machine RegFile), ∃ (v : Int) (n1 n2 n3 : Machine RegFile),
      readTemp regSensor n
        = some (readTemp_T
            (readTemp_t_fine ((256 * (n.dev.regs 0x89 % 256) + n.dev.regs 0x88 % 256 : Nat) : Int)
            (toS16 (256 * (n.dev.regs 0x8B % 256) + n.dev.regs 0x8A % 256))
            (toS16 (256 * (n.dev.regs 0x8D % 256) + n.dev.regs 0x8C % 256))
            ((4096 * (n.dev.regs 0xFA % 256) + 16 * (n.dev.regs 0xFB % 256)
            + n.dev.regs 0xFC % 256 / 16 : Nat) : Int)), n1)
      ∧ n1.t_fine
          = readTemp_t_fine ((256 * (n.dev.regs 0x89 % 256) + n.dev.regs 0x88 % 256 : Nat) : Int)
          (toS16 (256 * (n.dev.regs 0x8B % 256) + n.dev.regs 0x8A % 256))
          (toS16 (256 * (n.dev.regs 0x8D % 256) + n.dev.regs 0x8C % 256))
          ((4096 * (n.dev.regs 0xFA % 256) + 16 * (n.dev.regs 0xFB % 256)
          + n.dev.regs 0xFC % 256 / 16 : Nat) : Int)
      ∧ readHumidity regSensor n1
        = some (readHumidity_n ((n.dev.regs 0xA1 % 256 : Nat) : Int)
            (toS16 (256 * (n.dev.regs 0xE2 % 256) + n.dev.regs 0xE1 % 256))
            ((n.dev.regs 0xE3 % 256 : Nat) : Int)
            ((16 * (n.dev.regs 0xE4 % 256) + n.dev.regs 0xE5 % 256 % 16 : Nat) : Int)
            ((16 * (n.dev.regs 0xE6 % 256) + n.dev.regs 0xE5 % 256 / 16 : Nat) : Int)
            ((n.dev.regs 0xE7 % 256 : Nat) : Int)
            ((256 * (n.dev.regs 0xFD % 256) + n.dev.regs 0xFE % 256 : Nat) : Int)
            (readTemp_t_fine ((256 * (n.dev.regs 0x89 % 256) + n.dev.regs 0x88 % 256 : Nat) : Int)
                (toS16 (256 * (n.dev.regs 0x8B % 256) + n.dev.regs 0x8A % 256))
                (toS16 (256 * (n.dev.regs 0x8D % 256) + n.dev.regs 0x8C % 256))
                ((4096 * (n.dev.regs 0xFA % 256) + 16 * (n.dev.regs 0xFB % 256)
                + n.dev.regs 0xFC % 256 / 16 : Nat) : Int)), n2)
      ∧ n2.t_fine
          = readTemp_t_fine ((256 * (n.dev.regs 0x89 % 256) + n.dev.regs 0x88 % 256 : Nat) : Int)
          (toS16 (256 * (n.dev.regs 0x8B % 256) + n.dev.regs 0x8A % 256))
          (toS16 (256 * (n.dev.regs 0x8D % 256) + n.dev.regs 0x8C % 256))
          ((4096 * (n.dev.regs 0xFA % 256) + 16 * (n.dev.regs 0xFB % 256)
          + n.dev.regs 0xFC % 256 / 16 : Nat) : Int)
      ∧ readPressure_value ((256 * (n.dev.regs 0x8F % 256) + n.dev.regs 0x8E % 256 : Nat) : Int)
          (toS16 (256 * (n.dev.regs 0x91 % 256) + n.dev.regs 0x90 % 256))
          (toS16 (256 * (n.dev.regs 0x93 % 256) + n.dev.regs 0x92 % 256))
          (toS16 (256 * (n.dev.regs 0x95 % 256) + n.dev.regs 0x94 % 256))
          (toS16 (256 * (n.dev.regs 0x97 % 256) + n.dev.regs 0x96 % 256))
          (toS16 (256 * (n.dev.regs 0x99 % 256) + n.dev.regs 0x98 % 256))
          (toS16 (256 * (n.dev.regs 0x9B % 256) + n.dev.regs 0x9A % 256))
          (toS16 (256 * (n.dev.regs 0x9D % 256) + n.dev.regs 0x9C % 256))
          (toS16 (256 * (n.dev.regs 0x9F % 256) + n.dev.regs 0x9E % 256))
          ((4096 * (n.dev.regs 0xF7 % 256) + 16 * (n.dev.regs 0xF8 % 256)
          + n.dev.regs 0xF9 % 256 / 16 : Nat) : Int)
            (readTemp_t_fine ((256 * (n.dev.regs 0x89 % 256) + n.dev.regs 0x88 % 256 : Nat) : Int)
                (toS16 (256 * (n.dev.regs 0x8B % 256) + n.dev.regs 0x8A % 256))
                (toS16 (256 * (n.dev.regs 0x8D % 256) + n.dev.regs 0x8C % 256))
                ((4096 * (n.dev.regs 0xFA % 256) + 16 * (n.dev.regs 0xFB % 256)
                + n.dev.regs 0xFC % 256 / 16 : Nat) : Int)) = some v
      ∧ readPressure regSensor n2 = some (v, n3)
      ∧ n3.t_fine
          = readTemp_t_fine ((256 * (n.dev.regs 0x89 % 256) + n.dev.regs 0x88 % 256 : Nat) : Int)
          (toS16 (256 * (n.dev.regs 0x8B % 256) + n.dev.regs 0x8A % 256))
          (toS16 (256 * (n.dev.regs 0x8D % 256) + n.dev.regs 0x8C % 256))
          ((4096 * (n.dev.regs 0xFA % 256) + 16 * (n.dev.regs 0xFB % 256)
          + n.dev.regs 0xFC % 256 / 16 : Nat) : Int))
    ∧ (∃ m' : Machine σ, ∀ t,
      BME280_init S { m with t_fine := t } = some ((), { m' with t_fine := t }))
    ∧ (∀ reg, ∃ (v : Nat) (m' : Machine σ), ∀ t,
      readSPI8bit S reg { m with t_fine := t } = some (v, { m' with t_fine := t }))
    ∧ (∀ reg, ∃ (v : Nat) (m' : Machine σ), ∀ t,
      readSPI16bit S reg { m with t_fine := t } = some (v, { m' with t_fine := t }))
    ∧ (∀ reg, ∃ (v : Nat) (m' : Machine σ), ∀ t,
      readSPI16bit_u_LE S reg { m with t_fine := t } = some (v, { m' with t_fine := t }))
    ∧ (∀ reg, ∃ (v : Int) (m' : Machine σ), ∀ t,
      readSPI16bit_s_LE S reg { m with t_fine := t } = some (v, { m' with t_fine := t }))
    ∧ (∀ reg data, ∃ m' : Machine σ, ∀ t,
      writeSPI S reg data { m with t_fine := t } = some ((), { m' with t_fine := t })) := by
  refine ⟨?_, ?_, ?_, ?_, ?_, ?_, ?_, BME280_init_acc S m, fun reg => ?_, fun reg => ?_,
    fun reg => ?_, fun reg => readSPI16bit_s_LE_acc S reg m,
    fun reg data => writeSPI_acc S reg data m⟩
  · obtain ⟨a1, m1, _, h1⟩ := readSPI16bit_u_LE_acc S 0x88 m
    obtain ⟨a2, m2, h2⟩ := readSPI16bit_s_LE_acc S 0x8A m1
    obtain ⟨a3, m3, h3⟩ := readSPI16bit_s_LE_acc S 0x8C m2
    obtain ⟨a4, m4, _, h4⟩ := readSPI16bit_acc S 0xFA m3
    obtain ⟨a5, m5, _, h5⟩ := readSPI8bit_acc S 0xFC m4
    exact ⟨a1, a4, a5, a2, a3, m1, m2, m3, m4, m5, h1, h2, h3, h4, h5, fun t =>
      readTemp_of_reads S { m with t_fine := t } a1 a4 a5 a2 a3
        { m1 with t_fine := t } { m2 with t_fine := t } { m3 with t_fine := t }
        { m4 with t_fine := t } { m5 with t_fine := t }
        (h1 t) (h2 t) (h3 t) (h4 t) (h5 t)⟩
  · obtain ⟨a1, m1, _, h1⟩ := readSPI8bit_acc S 0xA1 m
    obtain ⟨a2, m2, h2⟩ := readSPI16bit_s_LE_acc S 0xE1 m1
    obtain ⟨a3, m3, _, h3⟩ := readSPI8bit_acc S 0xE3 m2
    obtain ⟨a4, m4, _, h4⟩ := readSPI8bit_acc S 0xE4 m3
    obtain ⟨a5, m5, _, h5⟩ := readSPI8bit_acc S 0xE5 m4
    obtain ⟨a6, m6, _, h6⟩ := readSPI8bit_acc S 0xE6 m5
    obtain ⟨a7, m7, _, h7⟩ := readSPI8bit_acc S 0xE5 m6
    obtain ⟨a8, m8, _, h8⟩ := readSPI8bit_acc S 0xE7 m7
    obtain ⟨a9, m9, _, h9⟩ := readSPI16bit_acc S 0xFD m8
    exact ⟨a1, a3, a4, a5, a6, a7, a8, a9, a2, m1, m2, m3, m4, m5, m6, m7, m8, m9, h1, h2, h3, h4,
        h5, h6, h7, h8, h9, fun t =>
      readHumidity_of_reads S { m with t_fine := t } a1 a3 a4 a5 a6 a7 a8 a9 a2
        { m1 with t_fine := t } { m2 with t_fine := t } { m3 with t_fine := t }
        { m4 with t_fine := t } { m5 with t_fine := t } { m6 with t_fine := t }
        { m7 with t_fine := t } { m8 with t_fine := t } { m9 with t_fine := t }
        (h1 t) (h2 t) (h3 t) (h4 t) (h5 t) (h6 t)
        (h7 t) (h8 t) (h9 t)⟩
  · obtain ⟨a1, m1, _, h1⟩ := readSPI16bit_u_LE_acc S 0x8E m
    obtain ⟨a2, m2, h2⟩ := readSPI16bit_s_LE_acc S 0x90 m1
    obtain ⟨a3, m3, h3⟩ := readSPI16bit_s_LE_acc S 0x92 m2
    obtain ⟨a4, m4, h4⟩ := readSPI16bit_s_LE_acc S 0x94 m3
    obtain ⟨a5, m5, h5⟩ := readSPI16bit_s_LE_acc S 0x96 m4
    obtain ⟨a6, m6, h6⟩ := readSPI16bit_s_LE_acc S 0x98 m5
    obtain ⟨a7, m7, h7⟩ := readSPI16bit_s_LE_acc S 0x9A m6
    obtain ⟨a8, m8, h8⟩ := readSPI16bit_s_LE_acc S 0x9C m7
    obtain ⟨a9, m9, h9⟩ := readSPI16bit_s_LE_acc S 0x9E m8
    obtain ⟨a10, m10, _, h10⟩ := readSPI16bit_acc S 0xF7 m9
    obtain ⟨a11, m11, _, h11⟩ := readSPI8bit_acc S 0xF9 m10
    refine ⟨a1, a10, a11, a2, a3, a4, a5, a6, a7, a8, a9, m1, m2, m3, m4, m5, m6, m7, m8, m9, m10,
        m11, h1, h2, h3, h4, h5, h6, h7, h8, h9, h10, h11, fun t => ?_⟩
    have e := readPressure_of_reads S { m with t_fine := t } a1 a10 a11 a2 a3 a4 a5 a6 a7 a8 a9
        { m1 with t_fine := t } { m2 with t_fine := t } { m3 with t_fine := t }
        { m4 with t_fine := t } { m5 with t_fine := t } { m6 with t_fine := t }
        { m7 with t_fine := t } { m8 with t_fine := t } { m9 with t_fine := t }
        { m10 with t_fine := t } { m11 with t_fine := t }
        (h1 t) (h2 t) (h3 t) (h4 t) (h5 t) (h6 t)
        (h7 t) (h8 t) (h9 t) (h10 t) (h11 t)
    have hv := readPressure_value_eq ((a1 : Nat) : Int) a2 a3 a4 a5 a6 a7 a8 a9
        ((((a10 <<< 8) % 4294967296 ||| a11) >>> 4 : Nat) : Int) t
    refine ⟨_, hv, ?_⟩
    rw [e]
    exact congrArg (Option.map _) hv
  · intro n t
    obtain ⟨n', e, h, _⟩ := readTemp_rf { n with t_fine := t } n.dev.regs rfl
    exact ⟨n', e, h⟩
  · intro n t
    obtain ⟨n', e, h, _⟩ := readHumidity_rf { n with t_fine := t } n.dev.regs rfl
    exact ⟨n', e, h⟩
  · intro n t
    obtain ⟨v, n', hv, e, h, _⟩ := readPressure_rf { n with t_fine := t } n.dev.regs rfl
    exact ⟨v, n', hv, e, h⟩
  · intro n
    obtain ⟨n1, e1, t1, r1⟩ := readTemp_rf n n.dev.regs rfl
    obtain ⟨n2, e2, t2, r2⟩ := readHumidity_rf n1 n.dev.regs r1
    obtain ⟨v, n3, hv, e3, t3, _⟩ := readPressure_rf n2 n.dev.regs r2
    rw [t1] at e2 t2
    rw [t2] at hv t3
    exact ⟨v, n1, n2, n3, e1, t1, e2, t2, hv, e3, t3⟩
  · obtain ⟨v, m', _, h⟩ := readSPI8bit_acc S reg m
    exact ⟨v, m', h⟩
  · obtain ⟨v, m', _, h⟩ := readSPI16bit_acc S reg m
    exact ⟨v, m', h⟩
  · obtain ⟨v, m', _, h⟩ := readSPI16bit_u_LE_acc S reg m
    exact ⟨v, m', h⟩

/-- C9, refuted as stated: at the address `0x10`, whose bit 7 is clear, the
byte `0x55` written by `writeSPI` is not read back by `readSPI8bit`: the read
sends the raw address, which the sensor takes for a write command; the value
returned is the undriven line (255) and the register is overwritten with the
dummy byte 0. -/
theorem write_read_roundtrip_fails_low_address :
    ((writeSPI regSensor 0x10 0x55 (boot fun _ => 0)).bind fun r =>
        (readSPI8bit regSensor 0x10 r.2).map fun q => (q.1, q.2.dev.regs 0x90)) = some (255, 0)
    ∧ ((writeSPI regSensor 0x10 0x55 (boot fun _ => 0)).bind fun r =>
        (readSPI8bit regSensor 0x10 r.2).map fun q => q.1) ≠ some 0x55 := by
  decide

/-- C9, amended: on the register-file sensor, for every address `addr` with
bit 7 set (`128 <= addr < 256`) and every byte `v`, `writeSPI(addr, v)` followed
by `readSPI8bit(addr)` returns `v`; and when moreover `addr < 255`, after
`writeSPI(addr, hi)` and `writeSPI(addr+1, lo)`, `readSPI16bit(addr)` returns
`256*hi + lo` and `readSPI16bit_u_LE(addr)` returns `256*lo + hi`. -/
theorem write_read_roundtrip (m : Machine RegFile) (addr v hi lo : Nat)
    (h1 : 128 ≤ addr) (h2 : addr < 256) (hv : v < 256) (hhi : hi < 256) (hlo : lo < 256) :
    (∃ m1 m2 : Machine RegFile, writeSPI regSensor addr v m = some ((), m1)
      ∧ readSPI8bit regSensor addr m1 = some (v, m2))
    ∧ (addr < 255 → ∃ m1 m2 m3 m4 : Machine RegFile,
        writeSPI regSensor addr hi m = some ((), m1)
        ∧ writeSPI regSensor (addr + 1) lo m1 = some ((), m2)
        ∧ readSPI16bit regSensor addr m2 = some (256 * hi + lo, m3)
        ∧ readSPI16bit_u_LE regSensor addr m2 = some (256 * lo + hi, m4)) := by
  constructor
  · obtain ⟨m1, e1, d1, _⟩ := regSensor_write m addr v h1 h2 hv
    obtain ⟨m2, e2, _, _⟩ := regSensor_read m1 addr h1 h2
    refine ⟨m1, m2, e1, ?_⟩
    rw [e2, d1]
    simp [Nat.mod_eq_of_lt hv]
  · intro h3
    obtain ⟨m1, e1, d1, _⟩ := regSensor_write m addr hi h1 h2 hhi
    obtain ⟨m2, e2, d2, _⟩ := regSensor_write m1 (addr + 1) lo (by omega) (by omega) hlo
    obtain ⟨m3, e3, _, _⟩ := regSensor_read16 m2 addr h1 h3
    obtain ⟨m4, e4, _, _⟩ := regSensor_read16_u_LE m2 addr h1 h3
    refine ⟨m1, m2, m3, m4, e1, e2, ?_, ?_⟩
    · rw [e3, d2, d1]
      simp [Nat.mod_eq_of_lt hhi, Nat.mod_eq_of_lt hlo]
    · rw [e4, d2, d1]
      simp [Nat.mod_eq_of_lt hhi, Nat.mod_eq_of_lt hlo]

/-- Witness of C9 (amended): the round trip at `addr = 0xF2`. -/
theorem write_read_roundtrip_witness :
    (128 ≤ 0xF2 ∧ 0xF2 < 256 ∧ 0x01 < 256 ∧ 0x12 < 256 ∧ 0x34 < 256)
    ∧ (∃ m1 m2 : Machine RegFile,
        writeSPI regSensor 0xF2 0x01 (boot fun _ => 0) = some ((), m1)
        ∧ readSPI8bit regSensor 0xF2 m1 = some (0x01, m2))
    ∧ (0xF2 < 255 → ∃ m1 m2 m3 m4 : Machine RegFile,
        writeSPI regSensor 0xF2 0x12 (boot fun _ => 0) = some ((), m1)
        ∧ writeSPI regSensor (0xF2 + 1) 0x34 m1 = some ((), m2)
        ∧ readSPI16bit regSensor 0xF2 m2 = some (256 * 0x12 + 0x34, m3)
        ∧ readSPI16bit_u_LE regSensor 0xF2 m2 = some (256 * 0x34 + 0x12, m4)) :=
  ⟨by decide,
    write_read_roundtrip (boot fun _ => 0) 0xF2 0x01 0x12 0x34 (by decide) (by decide)
      (by decide) (by decide) (by decide)⟩

/-- C10: for every address `reg` and byte `data`, `writeSPI(reg, data)` returns
and adds to the bus exactly: chip select low, the byte `reg & 0x7F` (`reg`
with bit 7 cleared), the byte `data`, chip select high; it has no value, both
received bytes having been read out of `SSPBUF` (the flag `BF` is clear) and
dropped; `t_fine` is untouched. -/
theorem writeSPI_framing (S : Sensor σ) (reg data : Nat) (m : Machine σ)
    (hreg : reg < 256) (hdata : data < 256) :
    ∃ (rx1 rx2 : Nat) (m' : Machine σ),
      writeSPI S reg data m = some ((), m')
      ∧ m'.bus = m.bus ++ [BusEvent.cs 0, BusEvent.xfer (reg &&& 0x7F) rx1,
          BusEvent.xfer data rx2, BusEvent.cs 1]
      ∧ reg &&& 0x7F < 128
      ∧ (reg = (reg &&& 0x7F) ∨ reg = (reg &&& 0x7F) + 128)
      ∧ m'.CSB = 1 ∧ m'.BF = false ∧ m'.t_fine = m.t_fine := by
  have h7 : reg &&& 0x7F = reg % 128 := and_7F reg
  have hm : (reg &&& 0xFF7F) % 256 = reg &&& 0x7F := by rw [and_FF7F_mod, and_7F]
  have hd : data % 256 = data := Nat.mod_eq_of_lt hdata
  refine ⟨(S.exchange (S.select m.dev) (reg &&& 0x7F)).2 % 256,
    (S.exchange (S.exchange (S.select m.dev) (reg &&& 0x7F)).1 data).2 % 256, _,
    writeSPI_eq S reg data m, ?_, ?_, ?_, rfl, rfl, rfl⟩
  · simp only [hm, hd]
  · omega
  · omega

/-- Witness of C10: the second write of `BME280_init`. -/
theorem writeSPI_framing_witness :
    (0xF4 < 256 ∧ 0x25 < 256)
    ∧ ∃ (rx1 rx2 : Nat) (m' : Machine RegFile),
      writeSPI regSensor 0xF4 0x25 (boot datasheetRegs) = some ((), m')
      ∧ m'.bus = (boot datasheetRegs).bus ++ [BusEvent.cs 0, BusEvent.xfer (0xF4 &&& 0x7F) rx1,
          BusEvent.xfer 0x25 rx2, BusEvent.cs 1]
      ∧ 0xF4 &&& 0x7F < 128
      ∧ (0xF4 = (0xF4 &&& 0x7F) ∨ 0xF4 = (0xF4 &&& 0x7F) + 128)
      ∧ m'.CSB = 1 ∧ m'.BF = false ∧ m'.t_fine = (boot datasheetRegs).t_fine :=
  ⟨by decide, writeSPI_framing regSensor 0xF4 0x25 (boot datasheetRegs) (by decide) (by decide)⟩

/-- C11: for every address `reg`, `readSPI8bit(reg)` returns and adds to the bus
exactly: chip select low, the byte `reg` as it is, the dummy byte 0, chip select
high; its value is the byte received in the second exchange (`rx2`), the byte
received in the first (`rx1`) is dropped; `BF` is clear and `t_fine` untouched. -/
theorem readSPI8bit_framing (S : Sensor σ) (reg : Nat) (m : Machine σ) (hreg : reg < 256) :
    ∃ (rx1 rx2 : Nat) (m' : Machine σ),
      readSPI8bit S reg m = some (rx2, m')
      ∧ m'.bus = m.bus ++ [BusEvent.cs 0, BusEvent.xfer reg rx1, BusEvent.xfer 0 rx2,
          BusEvent.cs 1]
      ∧ rx2 < 256 ∧ m'.CSB = 1 ∧ m'.BF = false ∧ m'.t_fine = m.t_fine := by
  have hr : reg % 256 = reg := Nat.mod_eq_of_lt hreg
  have e := readSPI8bit_eq S reg m
  rw [hr] at e
  exact ⟨_, _, _, e, rfl, Nat.mod_lt _ (by norm_num), rfl, rfl, rfl⟩

/-- Witness of C11: the read of `dig_H6` at `0xE7`. -/
theorem readSPI8bit_framing_witness :
    0xE7 < 256
    ∧ ∃ (rx1 rx2 : Nat) (m' : Machine RegFile),
      readSPI8bit regSensor 0xE7 (boot dryColdRegs) = some (rx2, m')
      ∧ m'.bus = (boot dryColdRegs).bus ++ [BusEvent.cs 0, BusEvent.xfer 0xE7 rx1,
          BusEvent.xfer 0 rx2, BusEvent.cs 1]
      ∧ rx2 < 256 ∧ m'.CSB = 1 ∧ m'.BF = false ∧ m'.t_fine = (boot dryColdRegs).t_fine :=
  ⟨by decide, readSPI8bit_framing regSensor 0xE7 (boot dryColdRegs) (by decide)⟩

/-- C12: `BME280_init` returns and adds to the bus exactly two chip-select
frames, carrying the bytes `0x72`, `0x01` and then `0x74`, `0x25`; on the
register-file sensor this leaves `0x01` in register `0xF2`, `0x25` in register
`0xF4` and every other register as it was. -/
theorem BME280_init_sequence (S : Sensor σ) (m : Machine σ) :
    (∃ (rx1 rx2 rx3 rx4 : Nat) (m' : Machine σ),
      BME280_init S m = some ((), m')
      ∧ m'.bus = m.bus ++ [BusEvent.cs 0, BusEvent.xfer 0x72 rx1, BusEvent.xfer 0x01 rx2,
          BusEvent.cs 1, BusEvent.cs 0, BusEvent.xfer 0x74 rx3, BusEvent.xfer 0x25 rx4,
          BusEvent.cs 1]
      ∧ m'.CSB = 1 ∧ m'.t_fine = m.t_fine)
    ∧ (∀ n : Machine RegFile, ∃ n' : Machine RegFile,
      BME280_init regSensor n = some ((), n')
      ∧ n'.dev.regs 0xF2 = 0x01 ∧ n'.dev.regs 0xF4 = 0x25
      ∧ ∀ a, a ≠ 0xF2 → a ≠ 0xF4 → n'.dev.regs a = n.dev.regs a) := by
  constructor
  · obtain ⟨r1, r2, m1, e1, b1, _, _, t1⟩ := writeSPI_bus S 0xF2 0x01 m
    obtain ⟨r3, r4, m2, e2, b2, c2, _, t2⟩ := writeSPI_bus S 0xF4 0x25 m1
    refine ⟨r1, r2, r3, r4, m2, ?_, ?_, c2, by rw [t2, t1]⟩
    · unfold BME280_init
      rw [bind_step e1]
      dsimp only
      rw [bind_step e2]
      rfl
    · rw [b2, b1, List.append_assoc]
      rfl
  · intro n
    obtain ⟨n1, e1, d1, _⟩ := regSensor_write n 0xF2 0x01 (by decide) (by decide) (by decide)
    obtain ⟨n2, e2, d2, _⟩ := regSensor_write n1 0xF4 0x25 (by decide) (by decide) (by decide)
    refine ⟨n2, ?_, ?_, ?_, ?_⟩
    · unfold BME280_init
      rw [bind_step e1]
      dsimp only
      rw [bind_step e2]
      rfl
    · rw [d2, d1]
      simp
    · rw [d2]
      simp
    · intro a h1 h2
      rw [d2, d1]
      simp [h1, h2]

/-- C13, refuted as stated: at the address `0x10`, whose bit 7 is clear, with
the bytes `0x12`, `0x34` in the registers selected by `0x10`, `0x11`,
`readSPI16bit` returns 65535 and not `256 * 0x12 + 0x34`: both read frames are
write commands for the sensor, which overwrite the two registers with 0; and at
the address `0xFF` the second read goes to the address `0x00` (`reg+1` as a
`char`), again a write command, and the value is `256 * 0x12 + 255`. -/
theorem readSPI16bit_low_address_not_register_bytes :
    (readSPI16bit regSensor 0x10
        (boot fun a => if a % 128 = 0x10 then 0x12 else if a % 128 = 0x11 then 0x34 else 0)).map
      (fun q => (q.1, q.2.dev.regs 0x90, q.2.dev.regs 0x91)) = some (65535, 0, 0)
    ∧ (readSPI16bit regSensor 0x10
        (boot fun a => if a % 128 = 0x10 then 0x12 else if a % 128 = 0x11 then 0x34 else 0)).map
      (fun q => q.1) ≠ some (256 * 0x12 + 0x34)
    ∧ (readSPI16bit regSensor 0xFF (boot fun a => if a = 0xFF then 0x12 else 0x34)).map
      (fun q => q.1) = some (256 * 0x12 + 255)
    ∧ (readSPI16bit regSensor 0xFF (boot fun a => if a = 0xFF then 0x12 else 0x34)).map
      (fun q => q.1) ≠ some (256 * 0x12 + 0x34) := by
  decide

/-- C13, amended: for every sensor and address `readSPI16bit` performs the two
8-bit reads of `reg` and of `reg+1` (as a `char`) and returns 256 times the
first byte received plus the second, at most 65535; on the register-file sensor,
for every address with bit 7 set other than `0xFF` (`128 <= addr < 255`), the
two bytes are the byte at `addr` and the byte at `addr+1`. -/
theorem readSPI16bit_big_endian (m : Machine RegFile) (addr : Nat)
    (h1 : 128 ≤ addr) (h2 : addr < 255) (hb : ∀ a, m.dev.regs a < 256) :
    (∀ (τ : Type) (S : Sensor τ) (reg : Nat) (n : Machine τ), ∃ (v1 v2 : Nat) (n1 n2 : Machine τ),
      readSPI8bit S reg n = some (v1, n1)
      ∧ readSPI8bit S ((reg + 1) % 256) n1 = some (v2, n2)
      ∧ readSPI16bit S reg n = some (256 * v1 + v2, n2)
      ∧ 256 * v1 + v2 ≤ 65535)
    ∧ ∃ m1 m2 : Machine RegFile,
      readSPI8bit regSensor addr m = some (m.dev.regs addr, m1)
      ∧ readSPI8bit regSensor (addr + 1) m1 = some (m.dev.regs (addr + 1), m2)
      ∧ readSPI16bit regSensor addr m
          = some (256 * m.dev.regs addr + m.dev.regs (addr + 1), m2)
      ∧ 256 * m.dev.regs addr + m.dev.regs (addr + 1) ≤ 65535 := by
  constructor
  · intro τ S reg n
    obtain ⟨v1, v2, n1, n2, e1, e2, e, b1, b2, _⟩ := readSPI16bit_some S reg n
    exact ⟨v1, v2, n1, n2, e1, e2, e, by omega⟩
  · obtain ⟨m1, e1, r1, _⟩ := rf_read8 m m.dev.regs rfl addr h1 (by omega)
    obtain ⟨m2, e2, _, _⟩ := rf_read8 m1 m.dev.regs r1 (addr + 1) (by omega) (by omega)
    have hs : (addr + 1) % 256 = addr + 1 := Nat.mod_eq_of_lt (by omega)
    have ha := hb addr
    have ha' := hb (addr + 1)
    rw [Nat.mod_eq_of_lt ha] at e1
    rw [Nat.mod_eq_of_lt ha'] at e2
    refine ⟨m1, m2, e1, e2, ?_, by omega⟩
    unfold readSPI16bit
    rw [bind_step e1]
    dsimp only
    rw [hs, bind_step e2]
    dsimp only
    rw [be16 _ _ ha ha']
    rfl

/-- Witness of C13 (amended): the read of the raw humidity at `0xFD`. -/
theorem readSPI16bit_big_endian_witness :
    (128 ≤ 0xFD ∧ 0xFD < 255 ∧ ∀ a, (boot dryColdRegs).dev.regs a < 256)
    ∧ ∃ m1 m2 : Machine RegFile,
      readSPI8bit regSensor 0xFD (boot dryColdRegs) = some ((boot dryColdRegs).dev.regs 0xFD, m1)
      ∧ readSPI8bit regSensor (0xFD + 1) m1 = some ((boot dryColdRegs).dev.regs (0xFD + 1), m2)
      ∧ readSPI16bit regSensor 0xFD (boot dryColdRegs)
          = some (256 * (boot dryColdRegs).dev.regs 0xFD
              + (boot dryColdRegs).dev.regs (0xFD + 1), m2)
      ∧ 256 * (boot dryColdRegs).dev.regs 0xFD + (boot dryColdRegs).dev.regs (0xFD + 1)
          ≤ 65535 :=
  ⟨⟨by decide, by decide, dryColdRegs_bytes⟩,
    (readSPI16bit_big_endian (boot dryColdRegs) 0xFD (by decide) (by decide)
      dryColdRegs_bytes).2⟩

/-- C14, refuted as stated: at the address `0xFF` the second read goes to the
address `0x00` (`reg+1` as a `char`), a write command for the sensor;
`readSPI16bit_u_LE` returns `0x12 + 256 * 255`, not the byte at `addr` plus 256
times the byte stored for `addr+1`; and at the address `0x20`, whose bit 7 is
clear, both read frames are write commands and the value is 65535. -/
theorem readSPI16bit_u_LE_wraps_at_FF :
    (readSPI16bit_u_LE regSensor 0xFF (boot fun a => if a = 0xFF then 0x12 else 0x34)).map
      (fun q => q.1) = some (0x12 + 256 * 255)
    ∧ (readSPI16bit_u_LE regSensor 0xFF (boot fun a => if a = 0xFF then 0x12 else 0x34)).map
      (fun q => q.1) ≠ some (0x12 + 256 * 0x34)
    ∧ (readSPI16bit_u_LE regSensor 0x20
        (boot fun a => if a % 128 = 0x20 then 0x12 else if a % 128 = 0x21 then 0x34 else 0)).map
      (fun q => q.1) = some 65535
    ∧ (readSPI16bit_u_LE regSensor 0x20
        (boot fun a => if a % 128 = 0x20 then 0x12 else if a % 128 = 0x21 then 0x34 else 0)).map
      (fun q => q.1) ≠ some (0x12 + 256 * 0x34) := by
  decide

/-- C14, amended: for every sensor and address the value `u` of
`readSPI16bit_u_LE` is the byte swap of the value `w` of `readSPI16bit`, and
swapping the bytes of `u` gives `w` back, both at most 65535; on the
register-file sensor, for every address with bit 7 set other than `0xFF`
(`128 <= addr < 255`), `u` is the byte at `addr` plus 256 times the byte at
`addr+1`. -/
theorem readSPI16bit_u_LE_byte_swap (m : Machine RegFile) (addr : Nat)
    (h1 : 128 ≤ addr) (h2 : addr < 255) (hb : ∀ a, m.dev.regs a < 256) :
    (∀ (τ : Type) (S : Sensor τ) (reg : Nat) (n : Machine τ), ∃ (w u : Nat) (n' : Machine τ),
      readSPI16bit S reg n = some (w, n')
      ∧ readSPI16bit_u_LE S reg n = some (u, n')
      ∧ u = 256 * (w % 256) + w / 256
      ∧ w = 256 * (u % 256) + u / 256
      ∧ w ≤ 65535 ∧ u ≤ 65535)
    ∧ ∃ m' : Machine RegFile,
      readSPI16bit_u_LE regSensor addr m
          = some (m.dev.regs addr + 256 * m.dev.regs (addr + 1), m')
      ∧ readSPI16bit regSensor addr m
          = some (256 * m.dev.regs addr + m.dev.regs (addr + 1), m')
      ∧ m.dev.regs addr + 256 * m.dev.regs (addr + 1) ≤ 65535 := by
  constructor
  · intro τ S reg n
    obtain ⟨w, n', e1, e2, hw, _⟩ := readSPI16bit_u_LE_some S reg n
    exact ⟨w, _, n', e1, e2, rfl, by omega, by omega, by omega⟩
  · obtain ⟨m', e, _, _⟩ := rf_read16 m m.dev.regs rfl addr h1 h2
    have ha := hb addr
    have ha' := hb (addr + 1)
    rw [Nat.mod_eq_of_lt ha, Nat.mod_eq_of_lt ha'] at e
    refine ⟨m', ?_, e, by omega⟩
    unfold readSPI16bit_u_LE
    rw [bind_step e]
    dsimp only
    rw [le16 _ _ ha ha', Nat.add_comm]
    rfl

/-- Witness of C14 (amended): the read of `dig_T1` at `0x88`. -/
theorem readSPI16bit_u_LE_byte_swap_witness :
    (128 ≤ 0x88 ∧ 0x88 < 255 ∧ ∀ a, (boot dryColdRegs).dev.regs a < 256)
    ∧ ∃ m' : Machine RegFile,
      readSPI16bit_u_LE regSensor 0x88 (boot dryColdRegs)
          = some ((boot dryColdRegs).dev.regs 0x88
              + 256 * (boot dryColdRegs).dev.regs (0x88 + 1), m')
      ∧ readSPI16bit regSensor 0x88 (boot dryColdRegs)
          = some (256 * (boot dryColdRegs).dev.regs 0x88
              + (boot dryColdRegs).dev.regs (0x88 + 1), m')
      ∧ (boot dryColdRegs).dev.regs 0x88 + 256 * (boot dryColdRegs).dev.regs (0x88 + 1)
          ≤ 65535 :=
  ⟨⟨by decide, by decide, dryColdRegs_bytes⟩,
    (readSPI16bit_u_LE_byte_swap (boot dryColdRegs) 0x88 (by decide) (by decide)
      dryColdRegs_bytes).2⟩

/-- C15: for every sensor and address, `readSPI16bit_s_LE` returns the value
`u` of `readSPI16bit_u_LE` read as two's complement: `u` when `u < 32768` and
`u - 65536` otherwise; the two have the same 16-bit pattern, the result lies
in `[-32768, 32767]` and is unchanged by the conversion to `signed long`. -/
theorem readSPI16bit_s_LE_twos_complement (S : Sensor σ) (reg : Nat) (m : Machine σ) :
    ∃ (u : Nat) (v : Int) (m' : Machine σ),
      readSPI16bit_u_LE S reg m = some (u, m')
      ∧ readSPI16bit_s_LE S reg m = some (v, m')
      ∧ u < 65536
      ∧ v = (if u < 32768 then (u : Int) else (u : Int) - 65536)
      ∧ v % 65536 = (u : Int)
      ∧ -32768 ≤ v ∧ v ≤ 32767
      ∧ s32 v = v := by
  obtain ⟨u, m', e1, e2, hu, _⟩ := readSPI16bit_s_LE_some S reg m
  have hv := toS16_eq u hu
  refine ⟨u, toS16 u, m', e1, e2, hu, hv, ?_, ?_, ?_, ?_⟩
  · rw [hv]; split_ifs <;> omega
  · rw [hv]; split_ifs <;> omega
  · rw [hv]; split_ifs <;> omega
  · rw [hv]; unfold s32; split_ifs <;> omega

/-- C16 (the code departs from the claim): with the byte `0xFF` in register
`0xE7`, `readSPI8bit` gives 255 and `readHumidity` computes with `dig_H6 = 255`
(result 62437, 60.97 %RH at `t_fine = 128422`), not with `dig_H6 = -1`, for
which the vendor reference gives 52233 (51.01 %RH): the cast `(signed int)` of
line 136 is applied to an `unsigned char` and keeps the value 0..255. -/
theorem readHumidity_dig_H6_unsigned :
    (readSPI8bit regSensor 0xE7 (boot humidityFFRegs)).map (fun q => q.1) = some 255
    ∧ (readHumidity regSensor { boot humidityFFRegs with t_fine := 128422 }).map (fun q => q.1)
        = some 62437
    ∧ readHumidity_n 75 360 0 320 50 255 30000 128422 = 62437
    ∧ readHumidity_n 75 360 0 320 50 (-1) 30000 128422 = 102400
    ∧ bme280_compensate_H_int32 75 360 0 320 50 255 30000 128422 = 62437
    ∧ bme280_compensate_H_int32 75 360 0 320 50 (-1) 30000 128422 = 52233 := by
  decide

/-- C17: on a register file of bytes `readHumidity` returns the humidity
formula at `dig_H4 = 16 * (byte at 0xE4) + (byte at 0xE5) mod 16` and
`dig_H5 = 16 * (byte at 0xE6) + (byte at 0xE5) div 16`, both at most 4095 (the
other arguments are the coefficients and raw sample as they are decoded). -/
theorem readHumidity_dig_H4_H5 (m : Machine RegFile) (hb : ∀ a, m.dev.regs a < 256) :
    (∃ m' : Machine RegFile,
      readHumidity regSensor m
        = some (readHumidity_n
            ((m.dev.regs 0xA1 : Nat) : Int)
            (toS16 (256 * m.dev.regs 0xE2 + m.dev.regs 0xE1))
            ((m.dev.regs 0xE3 : Nat) : Int)
            ((16 * m.dev.regs 0xE4 + m.dev.regs 0xE5 % 16 : Nat) : Int)
            ((16 * m.dev.regs 0xE6 + m.dev.regs 0xE5 / 16 : Nat) : Int)
            ((m.dev.regs 0xE7 : Nat) : Int)
            ((256 * m.dev.regs 0xFD + m.dev.regs 0xFE : Nat) : Int)
            m.t_fine, m'))
    ∧ 16 * m.dev.regs 0xE4 + m.dev.regs 0xE5 % 16 ≤ 4095
    ∧ 16 * m.dev.regs 0xE6 + m.dev.regs 0xE5 / 16 ≤ 4095 := by
  obtain ⟨m', e, _⟩ := readHumidity_rf_bytes m hb
  have h4 := hb 0xE4
  have h5 := hb 0xE5
  have h6 := hb 0xE6
  exact ⟨⟨m', e⟩, by omega, by omega⟩

/-- Witness of C17: the registers `dryColdRegs`. -/
theorem readHumidity_dig_H4_H5_witness :
    (∀ a, (boot dryColdRegs).dev.regs a < 256)
    ∧ (∃ m' : Machine RegFile,
      readHumidity regSensor (boot dryColdRegs)
        = some (readHumidity_n
            (((boot dryColdRegs).dev.regs 0xA1 : Nat) : Int)
            (toS16 (256 * (boot dryColdRegs).dev.regs 0xE2 + (boot dryColdRegs).dev.regs 0xE1))
            (((boot dryColdRegs).dev.regs 0xE3 : Nat) : Int)
            ((16 * (boot dryColdRegs).dev.regs 0xE4 + (boot dryColdRegs).dev.regs 0xE5 % 16 : Nat) : Int)
            ((16 * (boot dryColdRegs).dev.regs 0xE6 + (boot dryColdRegs).dev.regs 0xE5 / 16 : Nat) : Int)
            (((boot dryColdRegs).dev.regs 0xE7 : Nat) : Int)
            ((256 * (boot dryColdRegs).dev.regs 0xFD + (boot dryColdRegs).dev.regs 0xFE : Nat) : Int)
            (boot dryColdRegs).t_fine, m'))
    ∧ 16 * (boot dryColdRegs).dev.regs 0xE4 + (boot dryColdRegs).dev.regs 0xE5 % 16 ≤ 4095
    ∧ 16 * (boot dryColdRegs).dev.regs 0xE6 + (boot dryColdRegs).dev.regs 0xE5 / 16 ≤ 4095 :=
  ⟨dryColdRegs_bytes, readHumidity_dig_H4_H5 (boot dryColdRegs) dryColdRegs_bytes⟩

/-- C18: on a register file of bytes the raw sample that `readTemp` passes to
its formula is `4096 * MSB + 16 * LSB + XLSB div 16` of the registers
`0xFA .. 0xFC`, and the one `readPressure` passes is the same expression of
`0xF7 .. 0xF9`; both are below 2^20; and a register file that differs only in
the low four bits of the XLSB register gives the same temperature and `t_fine`,
respectively the same pressure. -/
theorem raw_sample_assembly (m : Machine RegFile) (hb : ∀ a, m.dev.regs a < 256) :
    (∃ m' : Machine RegFile,
      readTemp regSensor m
        = some (readTemp_T (readTemp_t_fine
            ((256 * m.dev.regs 0x89 + m.dev.regs 0x88 : Nat) : Int)
            (toS16 (256 * m.dev.regs 0x8B + m.dev.regs 0x8A))
            (toS16 (256 * m.dev.regs 0x8D + m.dev.regs 0x8C))
            ((4096 * m.dev.regs 0xFA + 16 * m.dev.regs 0xFB + m.dev.regs 0xFC / 16 : Nat) : Int)), m')
      ∧ m'.t_fine = readTemp_t_fine
            ((256 * m.dev.regs 0x89 + m.dev.regs 0x88 : Nat) : Int)
            (toS16 (256 * m.dev.regs 0x8B + m.dev.regs 0x8A))
            (toS16 (256 * m.dev.regs 0x8D + m.dev.regs 0x8C))
            ((4096 * m.dev.regs 0xFA + 16 * m.dev.regs 0xFB + m.dev.regs 0xFC / 16 : Nat) : Int))
    ∧ (∃ (v : Int) (m' : Machine RegFile),
      readPressure_value
            ((256 * m.dev.regs 0x8F + m.dev.regs 0x8E : Nat) : Int)
            (toS16 (256 * m.dev.regs 0x91 + m.dev.regs 0x90))
            (toS16 (256 * m.dev.regs 0x93 + m.dev.regs 0x92))
            (toS16 (256 * m.dev.regs 0x95 + m.dev.regs 0x94))
            (toS16 (256 * m.dev.regs 0x97 + m.dev.regs 0x96))
            (toS16 (256 * m.dev.regs 0x99 + m.dev.regs 0x98))
            (toS16 (256 * m.dev.regs 0x9B + m.dev.regs 0x9A))
            (toS16 (256 * m.dev.regs 0x9D + m.dev.regs 0x9C))
            (toS16 (256 * m.dev.regs 0x9F + m.dev.regs 0x9E))
            ((4096 * m.dev.regs 0xF7 + 16 * m.dev.regs 0xF8 + m.dev.regs 0xF9 / 16 : Nat) : Int)
            m.t_fine = some v
      ∧ readPressure regSensor m = some (v, m'))
    ∧ 4096 * m.dev.regs 0xFA + 16 * m.dev.regs 0xFB + m.dev.regs 0xFC / 16 < 1048576
    ∧ 4096 * m.dev.regs 0xF7 + 16 * m.dev.regs 0xF8 + m.dev.regs 0xF9 / 16 < 1048576
    ∧ (∀ n : Machine RegFile, (∀ a, n.dev.regs a < 256) →
        (∀ a, a ≠ 0xFC → n.dev.regs a = m.dev.regs a) →
        n.dev.regs 0xFC / 16 = m.dev.regs 0xFC / 16 →
        (readTemp regSensor n).map (fun q => (q.1, q.2.t_fine))
          = (readTemp regSensor m).map (fun q => (q.1, q.2.t_fine)))
    ∧ (∀ n : Machine RegFile, (∀ a, n.dev.regs a < 256) →
        (∀ a, a ≠ 0xF9 → n.dev.regs a = m.dev.regs a) →
        n.dev.regs 0xF9 / 16 = m.dev.regs 0xF9 / 16 → n.t_fine = m.t_fine →
        (readPressure regSensor n).map (fun q => q.1)
          = (readPressure regSensor m).map (fun q => q.1)) := by
  obtain ⟨mT, eT, tT⟩ := readTemp_rf_bytes m hb
  obtain ⟨v, mP, hv, eP, _⟩ := readPressure_rf_bytes m hb
  have b1 := hb 0xFA
  have b2 := hb 0xFB
  have b3 := hb 0xFC
  have b4 := hb 0xF7
  have b5 := hb 0xF8
  have b6 := hb 0xF9
  refine ⟨⟨mT, eT, tT⟩, ⟨v, mP, hv, eP⟩, by omega, by omega, ?_, ?_⟩
  · intro n hbn hne hx
    obtain ⟨nT, eN, tN⟩ := readTemp_rf_bytes n hbn
    have k88 := hne 0x88 (by decide)
    have k89 := hne 0x89 (by decide)
    have k8A := hne 0x8A (by decide)
    have k8B := hne 0x8B (by decide)
    have k8C := hne 0x8C (by decide)
    have k8D := hne 0x8D (by decide)
    have kFA := hne 0xFA (by decide)
    have kFB := hne 0xFB (by decide)
    rw [k88, k89, k8A, k8B, k8C, k8D, kFA, kFB, hx] at eN tN
    rw [eN, eT, Option.map_some', Option.map_some', tN, tT]
  · intro n hbn hne hx ht
    obtain ⟨w, nP, hw, eN, _⟩ := readPressure_rf_bytes n hbn
    have k8E := hne 0x8E (by decide)
    have k8F := hne 0x8F (by decide)
    have k90 := hne 0x90 (by decide)
    have k91 := hne 0x91 (by decide)
    have k92 := hne 0x92 (by decide)
    have k93 := hne 0x93 (by decide)
    have k94 := hne 0x94 (by decide)
    have k95 := hne 0x95 (by decide)
    have k96 := hne 0x96 (by decide)
    have k97 := hne 0x97 (by decide)
    have k98 := hne 0x98 (by decide)
    have k99 := hne 0x99 (by decide)
    have k9A := hne 0x9A (by decide)
    have k9B := hne 0x9B (by decide)
    have k9C := hne 0x9C (by decide)
    have k9D := hne 0x9D (by decide)
    have k9E := hne 0x9E (by decide)
    have k9F := hne 0x9F (by decide)
    have kF7 := hne 0xF7 (by decide)
    have kF8 := hne 0xF8 (by decide)
    rw [k8E, k8F, k90, k91, k92, k93, k94, k95, k96, k97, k98, k99, k9A, k9B, k9C, k9D, k9E, k9F, kF7, kF8, hx, ht, hv] at hw
    rw [eN, eP, Option.map_some', Option.map_some']
    exact congrArg some (Option.some.inj hw).symm

/-- Witness of C18: the registers `dryColdRegs`. -/
theorem raw_sample_assembly_witness :
    (∀ a, (boot dryColdRegs).dev.regs a < 256)
    ∧ 4096 * (boot dryColdRegs).dev.regs 0xFA + 16 * (boot dryColdRegs).dev.regs 0xFB
        + (boot dryColdRegs).dev.regs 0xFC / 16 < 1048576 :=
  ⟨dryColdRegs_bytes, (raw_sample_assembly (boot dryColdRegs) dryColdRegs_bytes).2.2.1⟩

/-- C19: for a 20-bit `adc_T` and a 16-bit `dig_T1`, when the exact products
`((adc_T>>3) - 2*dig_T1) * dig_T2`, `((adc_T>>4) - dig_T1)^2` and
`(((adc_T>>4) - dig_T1)^2 >> 12) * dig_T3` lie in `[0, 2^31)`, the `t_fine` of
`readTemp` (unsigned arithmetic, logical shifts) is the `t_fine` of the vendor
reference, and so is the integer converted to the reading. -/
theorem readTemp_agrees_with_reference_on_nonnegative_products
    (dig_T1 dig_T2 dig_T3 adc_T : Int)
    (hadc0 : 0 ≤ adc_T) (hadc1 : adc_T < 1048576)
    (hT1a : 0 ≤ dig_T1) (hT1b : dig_T1 ≤ 65535)
    (hP1a : 0 ≤ (shr adc_T 3 - 2 * dig_T1) * dig_T2)
    (hP1b : (shr adc_T 3 - 2 * dig_T1) * dig_T2 < 2147483648)
    (hP2a : 0 ≤ (shr adc_T 4 - dig_T1) * (shr adc_T 4 - dig_T1))
    (hP2b : (shr adc_T 4 - dig_T1) * (shr adc_T 4 - dig_T1) < 2147483648)
    (hP3a : 0 ≤ shr ((shr adc_T 4 - dig_T1) * (shr adc_T 4 - dig_T1)) 12 * dig_T3)
    (hP3b : shr ((shr adc_T 4 - dig_T1) * (shr adc_T 4 - dig_T1)) 12 * dig_T3 < 2147483648) :
    readTemp_t_fine dig_T1 dig_T2 dig_T3 adc_T
      = BME280_compensate_T_int32_t_fine dig_T1 dig_T2 dig_T3 adc_T
    ∧ readTemp_T (readTemp_t_fine dig_T1 dig_T2 dig_T3 adc_T)
      = BME280_compensate_T_int32 dig_T1 dig_T2 dig_T3 adc_T := by
  have h := readTemp_t_fine_eq_of_products dig_T1 dig_T2 dig_T3 adc_T hadc0 hadc1 hT1a hT1b
    hP1a hP1b hP2a hP2b hP3a hP3b
  refine ⟨h, ?_⟩
  unfold BME280_compensate_T_int32 readTemp_T
  rw [h]

/-- Witness of C19: the datasheet coefficients with a positive `dig_T3 = 50`. -/
theorem readTemp_agrees_with_reference_on_nonnegative_products_witness :
    (0 ≤ (shr 519888 3 - 2 * 27504) * 26435
      ∧ (shr 519888 3 - 2 * 27504) * 26435 < 2147483648
      ∧ 0 ≤ shr ((shr 519888 4 - 27504) * (shr 519888 4 - 27504)) 12 * 50
      ∧ shr ((shr 519888 4 - 27504) * (shr 519888 4 - 27504)) 12 * 50 < 2147483648)
    ∧ readTemp_t_fine 27504 26435 50 519888
      = BME280_compensate_T_int32_t_fine 27504 26435 50 519888
    ∧ readTemp_T (readTemp_t_fine 27504 26435 50 519888)
      = BME280_compensate_T_int32 27504 26435 50 519888 :=
  ⟨by decide,
    readTemp_agrees_with_reference_on_nonnegative_products 27504 26435 50 519888
      (by decide) (by decide) (by decide) (by decide) (by decide) (by decide) (by decide)
      (by decide) (by decide) (by decide)⟩

/-- C20: for every sensor and state, with the coefficients and the raw sample
that the reads of `readPressure` return, `readPressure` returns the integer
`v = p / 1000`, where `p` is the compensated pressure of lines 179-199 computed
from exactly these values and the stored `t_fine` (0 when the guard returns
early): `p` is an unsigned 32-bit value, `1000 * v <= p < 1000 * v + 1000`, and
`v` is the floor of the exact quotient `p / 1000`, between 0 and 4294967; two
inputs whose compensated pressures lie in the same block of 1000 give the same
reading; on the registers `pressureRegs` the compensated pressure is 100656
and the reading is 100, and with the raw sample `0x655BC` it is 100653 and the
reading is again 100. -/
theorem readPressure_whole_number (S : Sensor σ) (m : Machine σ) :
    (∃ (dig_P1 raw xlsb : Nat) (dig_P2 dig_P3 dig_P4 dig_P5 dig_P6 dig_P7 dig_P8 dig_P9 : Int)
        (m1 m2 m3 m4 m5 m6 m7 m8 m9 m10 m11 : Machine σ),
      readSPI16bit_u_LE S 0x8E m = some (dig_P1, m1)
      ∧ readSPI16bit_s_LE S 0x90 m1 = some (dig_P2, m2)
      ∧ readSPI16bit_s_LE S 0x92 m2 = some (dig_P3, m3)
      ∧ readSPI16bit_s_LE S 0x94 m3 = some (dig_P4, m4)
      ∧ readSPI16bit_s_LE S 0x96 m4 = some (dig_P5, m5)
      ∧ readSPI16bit_s_LE S 0x98 m5 = some (dig_P6, m6)
      ∧ readSPI16bit_s_LE S 0x9A m6 = some (dig_P7, m7)
      ∧ readSPI16bit_s_LE S 0x9C m7 = some (dig_P8, m8)
      ∧ readSPI16bit_s_LE S 0x9E m8 = some (dig_P9, m9)
      ∧ readSPI16bit S 0xF7 m9 = some (raw, m10)
      ∧ readSPI8bit S 0xF9 m10 = some (xlsb, m11)
      ∧ ∃ (p v : Int),
        (readPressure_p ((dig_P1 : Nat) : Int) dig_P2 dig_P3 dig_P4 dig_P5 dig_P6 dig_P7 dig_P8
            dig_P9 ((((raw <<< 8) % 4294967296 ||| xlsb) >>> 4 : Nat) : Int) m.t_fine).map
            (fun r => r.getD 0) = some p
        ∧ readPressure S m = some (v, m11)
        ∧ v = p / 1000
        ∧ 0 ≤ p ∧ p < 4294967296
        ∧ 1000 * v ≤ p ∧ p < 1000 * v + 1000
        ∧ 0 ≤ v ∧ v ≤ 4294967
        ∧ v = ⌊(p : ℚ) / 1000⌋)
    ∧ (∀ (c1 c2 c3 c4 c5 c6 c7 c8 c9 a t d1 d2 d3 d4 d5 d6 d7 d8 d9 b u p q k : Int),
        readPressure_p c1 c2 c3 c4 c5 c6 c7 c8 c9 a t = some (some p) →
        readPressure_p d1 d2 d3 d4 d5 d6 d7 d8 d9 b u = some (some q) →
        1000 * k ≤ p → p < 1000 * k + 1000 → 1000 * k ≤ q → q < 1000 * k + 1000 →
        readPressure_value c1 c2 c3 c4 c5 c6 c7 c8 c9 a t = some k
        ∧ readPressure_value d1 d2 d3 d4 d5 d6 d7 d8 d9 b u = some k)
    ∧ readPressure_p 36477 (-10685) 3024 2855 140 (-7) 15500 (-14600) 6000 415148 128422
        = some (some 100656)
    ∧ readPressure_p 36477 (-10685) 3024 2855 140 (-7) 15500 (-14600) 6000 415164 128422
        = some (some 100653)
    ∧ (readPressure regSensor { boot pressureRegs with t_fine := 128422 }).map (fun r => r.1)
        = some 100
    ∧ (readPressure regSensor
          { boot (fun a => if a = 0xF8 then 0x5B else pressureRegs a) with t_fine := 128422 }).map
        (fun r => r.1) = some 100 := by
  refine ⟨?_, ?_, by decide, by decide, by decide, by decide⟩
  · obtain ⟨a1, m1, _, h1⟩ := readSPI16bit_u_LE_acc S 0x8E m
    obtain ⟨a2, m2, h2⟩ := readSPI16bit_s_LE_acc S 0x90 m1
    obtain ⟨a3, m3, h3⟩ := readSPI16bit_s_LE_acc S 0x92 m2
    obtain ⟨a4, m4, h4⟩ := readSPI16bit_s_LE_acc S 0x94 m3
    obtain ⟨a5, m5, h5⟩ := readSPI16bit_s_LE_acc S 0x96 m4
    obtain ⟨a6, m6, h6⟩ := readSPI16bit_s_LE_acc S 0x98 m5
    obtain ⟨a7, m7, h7⟩ := readSPI16bit_s_LE_acc S 0x9A m6
    obtain ⟨a8, m8, h8⟩ := readSPI16bit_s_LE_acc S 0x9C m7
    obtain ⟨a9, m9, h9⟩ := readSPI16bit_s_LE_acc S 0x9E m8
    obtain ⟨a10, m10, _, h10⟩ := readSPI16bit_acc S 0xF7 m9
    obtain ⟨a11, m11, _, h11⟩ := readSPI8bit_acc S 0xF9 m10
    have e := readPressure_of_reads S m a1 a10 a11 a2 a3 a4 a5 a6 a7 a8 a9
      { m1 with t_fine := m.t_fine }
      { m2 with t_fine := m.t_fine }
      { m3 with t_fine := m.t_fine }
      { m4 with t_fine := m.t_fine }
      { m5 with t_fine := m.t_fine }
      { m6 with t_fine := m.t_fine }
      { m7 with t_fine := m.t_fine }
      { m8 with t_fine := m.t_fine }
      { m9 with t_fine := m.t_fine }
      { m10 with t_fine := m.t_fine }
      { m11 with t_fine := m.t_fine }
      (h1 m.t_fine) (h2 m.t_fine) (h3 m.t_fine) (h4 m.t_fine) (h5 m.t_fine)
      (h6 m.t_fine) (h7 m.t_fine) (h8 m.t_fine) (h9 m.t_fine) (h10 m.t_fine)
      (h11 m.t_fine)
    have hv := readPressure_value_eq ((a1 : Nat) : Int) a2 a3 a4 a5 a6 a7 a8 a9
        ((((a10 <<< 8) % 4294967296 ||| a11) >>> 4 : Nat) : Int) m.t_fine
    have hp := readPressure_p_getD ((a1 : Nat) : Int) a2 a3 a4 a5 a6 a7 a8 a9
        ((((a10 <<< 8) % 4294967296 ||| a11) >>> 4 : Nat) : Int) m.t_fine
    have hr := BME280_compensate_P_int32_range ((a1 : Nat) : Int) a2 a3 a4 a5 a6 a7 a8 a9
        ((((a10 <<< 8) % 4294967296 ||| a11) >>> 4 : Nat) : Int) m.t_fine
    refine ⟨a1, a10, a11, a2, a3, a4, a5, a6, a7, a8, a9,
      { m1 with t_fine := m.t_fine },
      { m2 with t_fine := m.t_fine },
      { m3 with t_fine := m.t_fine },
      { m4 with t_fine := m.t_fine },
      { m5 with t_fine := m.t_fine },
      { m6 with t_fine := m.t_fine },
      { m7 with t_fine := m.t_fine },
      { m8 with t_fine := m.t_fine },
      { m9 with t_fine := m.t_fine },
      { m10 with t_fine := m.t_fine },
      { m11 with t_fine := m.t_fine },
      h1 m.t_fine, h2 m.t_fine, h3 m.t_fine, h4 m.t_fine, h5 m.t_fine,
      h6 m.t_fine, h7 m.t_fine, h8 m.t_fine, h9 m.t_fine, h10 m.t_fine,
      h11 m.t_fine,
      _, _, hp, ?_, rfl, hr.1, hr.2, ?_, ?_, ?_, ?_, ?_⟩
    · rw [e]
      exact congrArg (Option.map _) hv
    · omega
    · omega
    · omega
    · omega
    · exact (Rat.floor_intCast_div_natCast _ 1000).symm
  · intro c1 c2 c3 c4 c5 c6 c7 c8 c9 a t d1 d2 d3 d4 d5 d6 d7 d8 d9 b u p q k hp hq h1 h2 h3 h4
    have ep : p / 1000 = k := by omega
    have eq : q / 1000 = k := by omega
    constructor
    · unfold readPressure_value
      rw [hp, ← ep]
      rfl
    · unfold readPressure_value
      rw [hq, ← eq]
      rfl

end BME280
